import Mathlib

/-!
# driver_sample.cpp : per-frame pose synthesis and host notification

Shallow embedding of `CSampleDeviceDriver::GetPose` and
`CSampleDeviceDriver::RunFrame` from
`OpenVR/samples/driver_sample/driver_sample.cpp`.

* C++ `double` / `float` values are elements of a field `α`; `cos` and `sin`
  are parameters of the embedding.  The theorems instantiate `α` with `ℝ`
  and `cos`, `sin` with `Real.cos`, `Real.sin`.
* The process-wide variables (`yaw`, `pitch`, ..., `c2pZ`, the scratch
  variables `t0..t5`, `ct0..ct5`), the member `m_unObjectId` and the two
  `DummyController` globals form the explicit state `DriverState`.
* `GetAsyncKeyState` is a key snapshot `Nat → Nat` (virtual-key code to the
  returned state word), fixed for the duration of one call.
* Calls on `VRServerDriverHost()` are recorded, in program order, as a list
  of `HostCall`.
-/

namespace DriverSample

/-! ## Data model -/

/-- Quaternion `HmdQuaternion_t` with components `w`, `x`, `y`, `z`. -/
structure HmdQuaternion_t (α : Type) where
  w : α
  x : α
  y : α
  z : α

/-- Source lines 28-36: builds a quaternion from its four components. -/
def HmdQuaternion_Init {α : Type} (w x y z : α) : HmdQuaternion_t α :=
  { w := w, x := x, y := y, z := z }

/-- Value of `vr::k_unTrackedDeviceIndexInvalid` in `openvr_driver.h`. -/
def k_unTrackedDeviceIndexInvalid : Nat := 0xFFFFFFFF

/-- Value of `TrackingResult_Running_OK` in `openvr_driver.h`. -/
def TrackingResult_Running_OK : Nat := 200

/-- Button identifiers of `vr::EVRButtonId` used by the driver. -/
inductive EVRButtonId where
  | k_EButton_System
  | k_EButton_ApplicationMenu
  | k_EButton_Grip
  | k_EButton_SteamVR_Touchpad
  | k_EButton_SteamVR_Trigger
  deriving DecidableEq, Repr

/-- The fields of `vr::DriverPose_t` that the driver reads or writes.  The
remaining fields (velocities, accelerations, translations) are zeroed by
`= { 0 }` and never touched. -/
structure DriverPose_t (α : Type) where
  poseTimeOffset : α
  qWorldFromDriverRotation : HmdQuaternion_t α
  qDriverFromHeadRotation : HmdQuaternion_t α
  vecPosition : α × α × α
  qRotation : HmdQuaternion_t α
  result : Nat
  poseIsValid : Bool
  willDriftInYaw : Bool
  shouldApplyHeadModel : Bool
  deviceIsConnected : Bool

/-- One analog axis, `vr::VRControllerAxis_t`. -/
structure VRControllerAxis_t (α : Type) where
  x : α
  y : α

/-- Controller input state, `vr::VRControllerState_t`; `rAxis` is indexed by
the axis slot. -/
structure VRControllerState_t (α : Type) where
  unPacketNum : Nat
  ulButtonPressed : Nat
  ulButtonTouched : Nat
  rAxis : Nat → VRControllerAxis_t α

/-- Modelled from the spec: the class `DummyController` of `DummyController.h`,
which is not among the sources.  Section 3 describes a device record holding
the runtime-assigned index, the last pose and the last button/axis state. -/
structure DummyController (α : Type) where
  object_id_ : Nat
  controller_pose_ : DriverPose_t α
  controller_state_ : VRControllerState_t α

/-- Modelled from the spec: `DummyController::getObjectID`, section 4.2
`get_runtime_index() -> index-or-invalid`. -/
def DummyController.getObjectID {α : Type} (c : DummyController α) : Nat :=
  c.object_id_

/-- Modelled from the spec: `DummyController::GetPose`, section 4.2
`get_pose() -> Pose` returns the last stored pose. -/
def DummyController.GetPose {α : Type} (c : DummyController α) : DriverPose_t α :=
  c.controller_pose_

/-- Modelled from the spec: `DummyController::GetControllerState`, section 4.2
`get_input_state() -> ButtonAxisState`. -/
def DummyController.GetControllerState {α : Type} (c : DummyController α) :
    VRControllerState_t α :=
  c.controller_state_

/-- Modelled from the spec: `DummyController::updateControllerPose`, section 4.2
`set_pose(Pose)` is a full replace with no validation. -/
def DummyController.updateControllerPose {α : Type} (c : DummyController α)
    (new_pose : DriverPose_t α) : DummyController α :=
  { c with controller_pose_ := new_pose }

/-- The mutable program state: the global variables of lines 68-80, the
member `m_unObjectId` of the HMD device and the two controller objects. -/
structure DriverState (α : Type) where
  yaw : α
  pitch : α
  roll : α
  pX : α
  pY : α
  pZ : α
  t0 : α
  t1 : α
  t2 : α
  t3 : α
  t4 : α
  t5 : α
  cyaw : α
  cpitch : α
  croll : α
  cpX : α
  cpY : α
  cpZ : α
  ct0 : α
  ct1 : α
  ct2 : α
  ct3 : α
  ct4 : α
  ct5 : α
  c2pX : α
  c2pY : α
  c2pZ : α
  m_unObjectId : Nat
  controller_left : DummyController α
  controller_right : DummyController α

/-- One call on `VRServerDriverHost()`.  The first argument is the device
index passed by the driver; the `sizeof( DriverPose_t )` argument of
`TrackedDevicePoseUpdated` is a constant and is left out. -/
inductive HostCall (α : Type) where
  | TrackedDevicePoseUpdated (unWhichDevice : Nat) (newPose : DriverPose_t α)
  | TrackedDeviceButtonPressed (unWhichDevice : Nat) (eButtonId : EVRButtonId)
      (eventTimeOffset : α)
  | TrackedDeviceButtonUnpressed (unWhichDevice : Nat) (eButtonId : EVRButtonId)
      (eventTimeOffset : α)
  | TrackedDeviceAxisUpdated (unWhichDevice : Nat) (unWhichAxis : Nat)
      (axisState : VRControllerAxis_t α)

/-! ## Keyboard -/

/-- A key snapshot: the value `GetAsyncKeyState` returns for each virtual-key
code, as a bit pattern. -/
abbrev KeySnapshot := Nat → Nat

/-- The test `(GetAsyncKeyState(vk) & 0x8000) != 0`. -/
def keyDown (keys : KeySnapshot) (vk : Nat) : Bool :=
  (keys vk &&& 0x8000) != 0

/-- Virtual-key codes of `WinUser.h`. -/
def VK_PRIOR : Nat := 0x21
/-- Virtual-key code of Page Down. -/
def VK_NEXT : Nat := 0x22
/-- Virtual-key code of End. -/
def VK_END : Nat := 0x23
/-- Virtual-key code of the left arrow. -/
def VK_LEFT : Nat := 0x25
/-- Virtual-key code of the up arrow. -/
def VK_UP : Nat := 0x26
/-- Virtual-key code of the right arrow. -/
def VK_RIGHT : Nat := 0x27
/-- Virtual-key code of the down arrow. -/
def VK_DOWN : Nat := 0x28
/-- Virtual-key code of numpad 1. -/
def VK_NUMPAD1 : Nat := 0x61
/-- Virtual-key code of numpad 2. -/
def VK_NUMPAD2 : Nat := 0x62
/-- Virtual-key code of numpad 3. -/
def VK_NUMPAD3 : Nat := 0x63
/-- Virtual-key code of numpad 4. -/
def VK_NUMPAD4 : Nat := 0x64
/-- Virtual-key code of numpad 6. -/
def VK_NUMPAD6 : Nat := 0x66
/-- Virtual-key code of numpad 8. -/
def VK_NUMPAD8 : Nat := 0x68
/-- Virtual-key code of numpad 9. -/
def VK_NUMPAD9 : Nat := 0x69

section Code

variable {α : Type} [Field α] (cos sin : α → α)

/-! ## `CSampleDeviceDriver::GetPose` (lines 359-416) -/

/-- Source lines 359-416.  Returns the pose together with the updated
globals. -/
def GetPose (keys : KeySnapshot) (s : DriverState α) : DriverPose_t α × DriverState α :=
  -- lines 370-377
  let yaw := if keyDown keys VK_NUMPAD3 then s.yaw + 0.01 else s.yaw
  let yaw := if keyDown keys VK_NUMPAD1 then yaw + -0.01 else yaw
  let pitch := if keyDown keys VK_NUMPAD4 then s.pitch + 0.01 else s.pitch
  let pitch := if keyDown keys VK_NUMPAD6 then pitch + -0.01 else pitch
  let roll := if keyDown keys VK_NUMPAD8 then s.roll + 0.01 else s.roll
  let roll := if keyDown keys VK_NUMPAD2 then roll + -0.01 else roll
  -- lines 379-384
  let yaw := if keyDown keys VK_NUMPAD9 then 0 else yaw
  let pitch := if keyDown keys VK_NUMPAD9 then 0 else pitch
  let roll := if keyDown keys VK_NUMPAD9 then 0 else roll
  -- lines 386-393
  let pZ := if keyDown keys VK_UP then s.pZ + -0.01 else s.pZ
  let pZ := if keyDown keys VK_DOWN then pZ + 0.01 else pZ
  let pX := if keyDown keys VK_LEFT then s.pX + -0.01 else s.pX
  let pX := if keyDown keys VK_RIGHT then pX + 0.01 else pX
  let pY := if keyDown keys VK_PRIOR then s.pY + 0.01 else s.pY
  let pY := if keyDown keys VK_NEXT then pY + -0.01 else pY
  -- line 395
  let pX := if keyDown keys VK_END then 0 else pX
  let pY := if keyDown keys VK_END then 0 else pY
  let pZ := if keyDown keys VK_END then 0 else pZ
  -- lines 402-407
  let t0 := cos (yaw * 0.5)
  let t1 := sin (yaw * 0.5)
  let t2 := cos (roll * 0.5)
  let t3 := sin (roll * 0.5)
  let t4 := cos (pitch * 0.5)
  let t5 := sin (pitch * 0.5)
  -- lines 361-367, 397-399, 410-413
  let pose : DriverPose_t α :=
    { poseTimeOffset := 0
      qWorldFromDriverRotation := HmdQuaternion_Init 1 0 0 0
      qDriverFromHeadRotation := HmdQuaternion_Init 1 0 0 0
      vecPosition := (pX, pY, pZ)
      qRotation :=
        { w := t0 * t2 * t4 + t1 * t3 * t5
          x := t0 * t3 * t4 - t1 * t2 * t5
          y := t0 * t2 * t5 + t1 * t3 * t4
          z := t1 * t2 * t4 - t0 * t3 * t5 }
      result := TrackingResult_Running_OK
      poseIsValid := true
      willDriftInYaw := false
      shouldApplyHeadModel := false
      deviceIsConnected := true }
  (pose, { s with yaw := yaw, pitch := pitch, roll := roll, pX := pX, pY := pY, pZ := pZ,
                  t0 := t0, t1 := t1, t2 := t2, t3 := t3, t4 := t4, t5 := t5 })

/-! ## `CSampleDeviceDriver::RunFrame` (lines 419-625) -/

/-- Source lines 492-532: the button and axis notifications of the left
controller.  `id` is `controller_left.getObjectID()` and `controller1_state`
the value read on line 492. -/
def RunFrame_controller1_input (keys : KeySnapshot) (id : Nat)
    (controller1_state : VRControllerState_t α) : List (HostCall α) :=
  (if keyDown keys 90 then
      [HostCall.TrackedDeviceButtonPressed id EVRButtonId.k_EButton_System (0.0 : α)]
    else
      [HostCall.TrackedDeviceButtonUnpressed id EVRButtonId.k_EButton_System (0.0 : α)])
  ++
  (if keyDown keys 88 then
      [HostCall.TrackedDeviceButtonPressed id EVRButtonId.k_EButton_SteamVR_Trigger (0.0 : α),
       HostCall.TrackedDeviceAxisUpdated id 1 { controller1_state.rAxis 1 with x := (1.0 : α) }]
    else
      [HostCall.TrackedDeviceAxisUpdated id 1 { controller1_state.rAxis 1 with x := (0.0 : α) },
       HostCall.TrackedDeviceButtonUnpressed id EVRButtonId.k_EButton_SteamVR_Trigger (0.0 : α)])
  ++
  (if keyDown keys 67 then
      [HostCall.TrackedDeviceButtonPressed id EVRButtonId.k_EButton_ApplicationMenu (0.0 : α)]
    else
      [HostCall.TrackedDeviceButtonUnpressed id EVRButtonId.k_EButton_ApplicationMenu (0.0 : α)])
  ++
  (if keyDown keys 86 then
      [HostCall.TrackedDeviceButtonPressed id EVRButtonId.k_EButton_Grip (0.0 : α)]
    else
      [HostCall.TrackedDeviceButtonUnpressed id EVRButtonId.k_EButton_Grip (0.0 : α)])
  ++
  (if keyDown keys 49 then
      [HostCall.TrackedDeviceButtonPressed id EVRButtonId.k_EButton_SteamVR_Touchpad (0.0 : α)]
    else
      [HostCall.TrackedDeviceButtonUnpressed id EVRButtonId.k_EButton_SteamVR_Touchpad (0.0 : α)])

/-- Source lines 547-598: the button and axis notifications of the right
controller.  `id` is `controller_right.getObjectID()` and `controller2_state`
the value read on line 547. -/
def RunFrame_controller2_input (keys : KeySnapshot) (id : Nat)
    (controller2_state : VRControllerState_t α) : List (HostCall α) :=
  (if keyDown keys 78 then
      [HostCall.TrackedDeviceButtonPressed id EVRButtonId.k_EButton_System (0.0 : α)]
    else
      [HostCall.TrackedDeviceButtonUnpressed id EVRButtonId.k_EButton_System (0.0 : α)])
  ++
  (if keyDown keys 188 then
      [HostCall.TrackedDeviceButtonPressed id EVRButtonId.k_EButton_SteamVR_Trigger (0.0 : α),
       HostCall.TrackedDeviceAxisUpdated id 1 { controller2_state.rAxis 1 with x := (1.0 : α) }]
    else
      [HostCall.TrackedDeviceAxisUpdated id 1 { controller2_state.rAxis 1 with x := (0.0 : α) },
       HostCall.TrackedDeviceButtonUnpressed id EVRButtonId.k_EButton_SteamVR_Trigger (0.0 : α)])
  ++
  (if keyDown keys 190 then
      [HostCall.TrackedDeviceButtonPressed id EVRButtonId.k_EButton_ApplicationMenu (0.0 : α)]
    else
      [HostCall.TrackedDeviceButtonUnpressed id EVRButtonId.k_EButton_ApplicationMenu (0.0 : α)])
  ++
  (if keyDown keys 191 then
      [HostCall.TrackedDeviceButtonPressed id EVRButtonId.k_EButton_Grip (0.0 : α)]
    else
      [HostCall.TrackedDeviceButtonUnpressed id EVRButtonId.k_EButton_Grip (0.0 : α)])
  ++
  (if keyDown keys 50 then
      [HostCall.TrackedDeviceButtonPressed id EVRButtonId.k_EButton_SteamVR_Touchpad (0.0 : α)]
    else
      [HostCall.TrackedDeviceButtonUnpressed id EVRButtonId.k_EButton_SteamVR_Touchpad (0.0 : α)])
  ++
  (if keyDown keys 51 then
      [HostCall.TrackedDeviceAxisUpdated id 0 { x := (1.0 : α), y := (0.0 : α) }]
    else
      [HostCall.TrackedDeviceAxisUpdated id 0 { x := (0.0 : α), y := (0.0 : α) }])

/-- What one `RunFrame` call produces: the state it leaves, the host calls
it made in program order, and the final values of its locals `left_pose`
and `right_pose`. -/
structure RunFrameResult (α : Type) where
  state : DriverState α
  calls : List (HostCall α)
  left_pose : DriverPose_t α
  right_pose : DriverPose_t α

/-- Source lines 424-427: the guarded head pose update.  Returns the host
calls made and the state left (`GetPose` runs only inside the guard). -/
def RunFrame_head (keys : KeySnapshot) (s : DriverState α) :
    List (HostCall α) × DriverState α :=
  if s.m_unObjectId != k_unTrackedDeviceIndexInvalid then
    ([HostCall.TrackedDevicePoseUpdated s.m_unObjectId (GetPose cos sin keys s).1],
      (GetPose cos sin keys s).2)
  else
    ([], s)

/-- Source lines 419-625. -/
def RunFrame (keys : KeySnapshot) (s : DriverState α) : RunFrameResult α :=
  -- lines 424-427
  let head := RunFrame_head cos sin keys s
  let s := head.2
  -- line 432
  let left_pose := s.controller_left.GetPose
  -- lines 434-438
  let cyaw := if keyDown keys 70 then s.cyaw + 0.1 else s.cyaw
  let cyaw := if keyDown keys 72 then cyaw + -0.1 else cyaw
  let croll := if keyDown keys 84 then s.croll + 0.1 else s.croll
  let croll := if keyDown keys 71 then croll + -0.1 else croll
  -- lines 440-444
  let cpitch := if keyDown keys 66 then 0 else s.cpitch
  let croll := if keyDown keys 66 then 0 else croll
  -- lines 447-454
  let cpZ := if keyDown keys 87 then s.cpZ + -0.01 else s.cpZ
  let cpZ := if keyDown keys 83 then cpZ + 0.01 else cpZ
  let cpX := if keyDown keys 65 then s.cpX + -0.01 else s.cpX
  let cpX := if keyDown keys 68 then cpX + 0.01 else cpX
  let cpY := if keyDown keys 81 then s.cpY + 0.01 else s.cpY
  let cpY := if keyDown keys 69 then cpY + -0.01 else cpY
  -- line 456
  let cpX := if keyDown keys 82 then 0 else cpX
  let cpY := if keyDown keys 82 then 0 else cpY
  let cpZ := if keyDown keys 82 then 0 else cpZ
  -- lines 458-460
  let left_pose := { left_pose with vecPosition := (cpX, cpY, cpZ) }
  -- lines 463-468
  let ct0 := cos (cyaw * 0.5)
  let ct1 := sin (cyaw * 0.5)
  let ct2 := cos (croll * 0.5)
  let ct3 := sin (croll * 0.5)
  let ct4 := cos (cpitch * 0.5)
  let ct5 := sin (cpitch * 0.5)
  -- lines 471-474
  let left_pose := { left_pose with qRotation :=
    { w := ct0 * ct2 * ct4 + ct1 * ct3 * ct5
      x := ct0 * ct3 * ct4 - ct1 * ct2 * ct5
      y := ct0 * ct2 * ct5 + ct1 * ct3 * ct4
      z := ct1 * ct2 * ct4 - ct0 * ct3 * ct5 } }
  -- lines 492-532
  let controller1_state := s.controller_right.GetControllerState
  let calls1 := RunFrame_controller1_input keys s.controller_left.getObjectID controller1_state
  -- lines 541-543
  let controller_left := s.controller_left.updateControllerPose left_pose
  let pose1 := [HostCall.TrackedDevicePoseUpdated controller_left.getObjectID
                  controller_left.GetPose]
  -- lines 547-598
  let controller2_state := s.controller_right.GetControllerState
  let calls2 := RunFrame_controller2_input keys s.controller_right.getObjectID controller2_state
  -- line 600
  let right_pose := s.controller_right.GetPose
  -- lines 602-609
  let c2pZ := if keyDown keys 73 then s.c2pZ + -0.01 else s.c2pZ
  let c2pZ := if keyDown keys 75 then c2pZ + 0.01 else c2pZ
  let c2pX := if keyDown keys 74 then s.c2pX + -0.01 else s.c2pX
  let c2pX := if keyDown keys 76 then c2pX + 0.01 else c2pX
  let c2pY := if keyDown keys 85 then s.c2pY + 0.01 else s.c2pY
  let c2pY := if keyDown keys 79 then c2pY + -0.01 else c2pY
  -- line 611
  let c2pX := if keyDown keys 80 then 0 else c2pX
  let c2pY := if keyDown keys 80 then 0 else c2pY
  let c2pZ := if keyDown keys 80 then 0 else c2pZ
  -- lines 613-621
  let right_pose := { right_pose with vecPosition := (c2pX, c2pY, c2pZ) }
  let right_pose := { right_pose with qRotation :=
    { w := left_pose.qRotation.w
      x := left_pose.qRotation.x
      y := left_pose.qRotation.y
      z := left_pose.qRotation.z } }
  -- lines 623-624
  let controller_right := s.controller_right.updateControllerPose right_pose
  let pose2 := [HostCall.TrackedDevicePoseUpdated controller_right.getObjectID
                  controller_right.GetPose]
  { state := { s with cyaw := cyaw, cpitch := cpitch, croll := croll,
                      cpX := cpX, cpY := cpY, cpZ := cpZ,
                      ct0 := ct0, ct1 := ct1, ct2 := ct2, ct3 := ct3, ct4 := ct4, ct5 := ct5,
                      c2pX := c2pX, c2pY := c2pY, c2pZ := c2pZ,
                      controller_left := controller_left,
                      controller_right := controller_right }
    calls := head.1 ++ calls1 ++ pose1 ++ calls2 ++ pose2
    left_pose := left_pose
    right_pose := right_pose }

/-! ## The conversion as the specification words it (section 4.1) -/

/-- The conversion of section 4.1, written from the specification:
`cy/sy = cos/sin(yaw/2)`, `cr/sr = cos/sin(roll/2)`, `cp/sp = cos/sin(pitch/2)`. -/
def specConversion (yaw pitch roll : α) : HmdQuaternion_t α :=
  let cy := cos (yaw / 2)
  let sy := sin (yaw / 2)
  let cr := cos (roll / 2)
  let sr := sin (roll / 2)
  let cp := cos (pitch / 2)
  let sp := sin (pitch / 2)
  { w := cy * cr * cp + sy * sr * sp
    x := cy * sr * cp - sy * cr * sp
    y := cy * cr * sp + sy * sr * cp
    z := sy * cr * cp - cy * sr * sp }

end Code

/-! ## Observations on results -/

/-- Squared norm of a quaternion. -/
def HmdQuaternion_t.normSq {α : Type} [Field α] (q : HmdQuaternion_t α) : α :=
  q.w ^ 2 + q.x ^ 2 + q.y ^ 2 + q.z ^ 2

/-- The device index a host call carries. -/
def HostCall.unWhichDevice {α : Type} : HostCall α → Nat
  | HostCall.TrackedDevicePoseUpdated i _ => i
  | HostCall.TrackedDeviceButtonPressed i _ _ => i
  | HostCall.TrackedDeviceButtonUnpressed i _ _ => i
  | HostCall.TrackedDeviceAxisUpdated i _ _ => i

/-- Whether a host call is a pose update. -/
def HostCall.isPoseUpdate {α : Type} : HostCall α → Bool
  | HostCall.TrackedDevicePoseUpdated _ _ => true
  | _ => false

/-- Whether a host call is a button-pressed or button-unpressed notification. -/
def HostCall.isButton {α : Type} : HostCall α → Bool
  | HostCall.TrackedDeviceButtonPressed _ _ _ => true
  | HostCall.TrackedDeviceButtonUnpressed _ _ _ => true
  | _ => false

/-- Whether a host call is an axis notification. -/
def HostCall.isAxis {α : Type} : HostCall α → Bool
  | HostCall.TrackedDeviceAxisUpdated _ _ _ => true
  | _ => false

/-- Whether a host call is an input (button or axis) notification. -/
def HostCall.isInput {α : Type} (c : HostCall α) : Bool :=
  c.isButton || c.isAxis

/-- What an input notification tells the host apart from the device index:
pressed or unpressed with the button, or the axis slot with its x-channel. -/
inductive InputSignal (α : Type) where
  | pressed (eButtonId : EVRButtonId)
  | unpressed (eButtonId : EVRButtonId)
  | axis (unWhichAxis : Nat) (x : α)

/-- The input signal of a host call, `none` for a pose update. -/
def HostCall.inputSignal {α : Type} : HostCall α → Option (InputSignal α)
  | HostCall.TrackedDevicePoseUpdated _ _ => none
  | HostCall.TrackedDeviceButtonPressed _ b _ => some (InputSignal.pressed b)
  | HostCall.TrackedDeviceButtonUnpressed _ b _ => some (InputSignal.unpressed b)
  | HostCall.TrackedDeviceAxisUpdated _ a st => some (InputSignal.axis a st.x)

/-! ## Concrete states and key snapshots -/

/-- The pose `test_pose` built on lines 684-692 of `CServerDriver_Sample::Init`. -/
def test_pose {α : Type} [Field α] : DriverPose_t α :=
  { poseTimeOffset := 0
    qWorldFromDriverRotation := { w := 1, x := 0, y := 0, z := 0 }
    qDriverFromHeadRotation := { w := 1, x := 0, y := 0, z := 0 }
    vecPosition := (0, 0, 0)
    qRotation := { w := 0, x := 0, y := 0, z := 0 }
    result := TrackingResult_Running_OK
    poseIsValid := true
    willDriftInYaw := false
    shouldApplyHeadModel := false
    deviceIsConnected := true }

/-- The state `test_state` of lines 694-695; the source initialises only the
two button masks, the other fields are taken to be zero here. -/
def test_state {α : Type} [Field α] : VRControllerState_t α :=
  { unPacketNum := 0
    ulButtonPressed := 0
    ulButtonTouched := 0
    rAxis := fun _ => { x := 0, y := 0 } }

/-- The state with the given device indices and every global at its
initialiser (lines 69-80), the controllers as `Init` builds them. -/
def stateWithIndices {α : Type} [Field α] (hmd left right : Nat) : DriverState α :=
  { yaw := 0, pitch := 0, roll := 0, pX := 0, pY := 0, pZ := 0
    t0 := 0, t1 := 0, t2 := 0, t3 := 0, t4 := 0, t5 := 0
    cyaw := 0, cpitch := 0, croll := 0, cpX := 0, cpY := 0, cpZ := 0
    ct0 := 0, ct1 := 0, ct2 := 0, ct3 := 0, ct4 := 0, ct5 := 0
    c2pX := 0, c2pY := 0, c2pZ := 0
    m_unObjectId := hmd
    controller_left :=
      { object_id_ := left, controller_pose_ := test_pose, controller_state_ := test_state }
    controller_right :=
      { object_id_ := right, controller_pose_ := test_pose, controller_state_ := test_state } }

/-- The state after `Init` and before any activation: every device index is
still invalid. -/
def initialState {α : Type} [Field α] : DriverState α :=
  stateWithIndices k_unTrackedDeviceIndexInvalid k_unTrackedDeviceIndexInvalid
    k_unTrackedDeviceIndexInvalid

/-- The state after the host activated the HMD as device 0 and the
controllers as devices 1 and 2. -/
def activatedState {α : Type} [Field α] : DriverState α :=
  stateWithIndices 0 1 2

/-- The key snapshot with no key down. -/
def noKeys : KeySnapshot := fun _ => 0

/-- The key snapshot with exactly the key `vk` down. -/
def onlyKey (vk : Nat) : KeySnapshot := fun k => if k = vk then 0x8000 else 0

/-- The key snapshot with exactly the keys of the list `l` down. -/
def keysDown (l : List Nat) : KeySnapshot := fun k => if k ∈ l then 0x8000 else 0

/-- Every orientation and position accumulator is zero. -/
def DriverState.accumulatorsZero {α : Type} [Field α] (s : DriverState α) : Prop :=
  s.yaw = 0 ∧ s.pitch = 0 ∧ s.roll = 0 ∧ s.pX = 0 ∧ s.pY = 0 ∧ s.pZ = 0 ∧
  s.cyaw = 0 ∧ s.cpitch = 0 ∧ s.croll = 0 ∧ s.cpX = 0 ∧ s.cpY = 0 ∧ s.cpZ = 0 ∧
  s.c2pX = 0 ∧ s.c2pY = 0 ∧ s.c2pZ = 0

/-- The accumulators other than the head orientation: head position, then
the controller orientation and the two controller positions. -/
def DriverState.positionAndControllerAccumulators {α : Type} (s : DriverState α) : List α :=
  [s.pX, s.pY, s.pZ, s.cyaw, s.cpitch, s.croll, s.cpX, s.cpY, s.cpZ, s.c2pX, s.c2pY, s.c2pZ]

/-! ## Accumulator groups and key groups -/

/-- The head orientation accumulator `(yaw, pitch, roll)`. -/
def DriverState.headOrientation {α : Type} (s : DriverState α) : α × α × α :=
  (s.yaw, s.pitch, s.roll)

/-- The head position accumulator `(pX, pY, pZ)`. -/
def DriverState.headPosition {α : Type} (s : DriverState α) : α × α × α :=
  (s.pX, s.pY, s.pZ)

/-- The controller orientation accumulator `(cyaw, cpitch, croll)`. -/
def DriverState.controllerOrientation {α : Type} (s : DriverState α) : α × α × α :=
  (s.cyaw, s.cpitch, s.croll)

/-- The left-controller position accumulator `(cpX, cpY, cpZ)`. -/
def DriverState.leftPosition {α : Type} (s : DriverState α) : α × α × α :=
  (s.cpX, s.cpY, s.cpZ)

/-- The right-controller position accumulator `(c2pX, c2pY, c2pZ)`. -/
def DriverState.rightPosition {α : Type} (s : DriverState α) : α × α × α :=
  (s.c2pX, s.c2pY, s.c2pZ)

/-- The head movement keys and the head position-reset key END. -/
def headPositionKeys : List Nat :=
  [VK_UP, VK_DOWN, VK_LEFT, VK_RIGHT, VK_PRIOR, VK_NEXT, VK_END]

/-- The left-controller movement keys W, S, A, D, Q, E and its reset key R. -/
def leftPositionKeys : List Nat := [87, 83, 65, 68, 81, 69, 82]

/-- The right-controller movement keys I, K, J, L, U, O and its reset key P. -/
def rightPositionKeys : List Nat := [73, 75, 74, 76, 85, 79, 80]

/-- Two key snapshots show the same up/down state on every key of `l`. -/
def agreeOn (l : List Nat) (k1 k2 : KeySnapshot) : Prop :=
  ∀ vk ∈ l, keyDown k1 vk = keyDown k2 vk

/-! ## The per-poll behaviour as the specification words it -/

/-- The increment of section 4.1 for one angle: `+d` when only the plus key
is down, `-d` when only the minus key is down, nothing when both are up or
both are down. -/
def specStep {α : Type} [Field α] (plus minus : Bool) (d : α) : α :=
  match plus, minus with
  | true, false => d
  | false, true => -d
  | _, _ => 0

/-- The button notification of section 4.3: "button pressed" if the mapped
key is down, "button unpressed" otherwise. -/
def specButtonCall {α : Type} [Field α] (id : Nat) (b : EVRButtonId) (down : Bool) :
    HostCall α :=
  if down then HostCall.TrackedDeviceButtonPressed id b (0.0 : α)
  else HostCall.TrackedDeviceButtonUnpressed id b (0.0 : α)

/-- The axis notification of section 4.3 on slot `slot`: x-channel 1.0 if the
mapped key is down and 0.0 otherwise, y-channel `y`. -/
def specAxisCall {α : Type} [Field α] (id slot : Nat) (down : Bool) (y : α) : HostCall α :=
  HostCall.TrackedDeviceAxisUpdated id slot
    { x := if down then (1.0 : α) else (0.0 : α), y := y }

/-- The rotation of a body whose pitch is zero, as the claim on `cpitch` words
it: `(cy*cr, cy*sr, sy*sr, sy*cr)` with `cy/sy = cos/sin(cyaw/2)` and
`cr/sr = cos/sin(croll/2)`. -/
def specYawRoll {α : Type} [Field α] (cos sin : α → α) (cyaw croll : α) : HmdQuaternion_t α :=
  let cy := cos (cyaw / 2)
  let sy := sin (cyaw / 2)
  let cr := cos (croll / 2)
  let sr := sin (croll / 2)
  { w := cy * cr, x := cy * sr, y := sy * sr, z := sy * cr }

/-! ## Call sequences -/

/-- Source line 208 of `CSampleDeviceDriver::Activate`: the host assigns the
HMD its index (the property calls of lines 209-265 do not touch the state
modelled here). -/
def Activate {α : Type} (unObjectId : Nat) (s : DriverState α) : DriverState α :=
  { s with m_unObjectId := unObjectId }

/-- Source lines 268-271, `CSampleDeviceDriver::Deactivate`. -/
def Deactivate {α : Type} (s : DriverState α) : DriverState α :=
  { s with m_unObjectId := k_unTrackedDeviceIndexInvalid }

/-- Modelled from the spec: `DummyController::Activate` of `DummyController.h`,
which is not among the sources; section 3: a device record is activated when
the host assigns a runtime index, the only field that changes. -/
def DummyController.Activate {α : Type} (c : DummyController α) (unObjectId : Nat) :
    DummyController α :=
  { c with object_id_ := unObjectId }

/-- One call the host can make on the driver. -/
inductive DriverCall where
  | runFrame (keys : KeySnapshot)
  | getPose (keys : KeySnapshot)
  | activate (unObjectId : Nat)
  | deactivate
  | activateLeft (unObjectId : Nat)
  | activateRight (unObjectId : Nat)

/-- The state one host call leaves. -/
def applyCall {α : Type} [Field α] (cos sin : α → α) (s : DriverState α) :
    DriverCall → DriverState α
  | DriverCall.runFrame keys => (RunFrame cos sin keys s).state
  | DriverCall.getPose keys => (GetPose cos sin keys s).2
  | DriverCall.activate i => Activate i s
  | DriverCall.deactivate => Deactivate s
  | DriverCall.activateLeft i => { s with controller_left := s.controller_left.Activate i }
  | DriverCall.activateRight i => { s with controller_right := s.controller_right.Activate i }

/-- The state a sequence of host calls leaves, starting from `s`. -/
def runCalls {α : Type} [Field α] (cos sin : α → α) (calls : List DriverCall)
    (s : DriverState α) : DriverState α :=
  calls.foldl (applyCall cos sin) s

/-! ## Theorems -/

theorem half_eq (x : ℝ) : x * 0.5 = x / 2 := by
  norm_num
  ring

theorem euler_norm (a b c d e f : ℝ) (h1 : a ^ 2 + b ^ 2 = 1) (h2 : c ^ 2 + d ^ 2 = 1)
    (h3 : e ^ 2 + f ^ 2 = 1) :
    (a * c * e + b * d * f) ^ 2 + (a * d * e - b * c * f) ^ 2 + (a * c * f + b * d * e) ^ 2
      + (b * c * e - a * d * f) ^ 2 = 1 := by
  have h : (a * c * e + b * d * f) ^ 2 + (a * d * e - b * c * f) ^ 2
      + (a * c * f + b * d * e) ^ 2 + (b * c * e - a * d * f) ^ 2
      = (a ^ 2 + b ^ 2) * (c ^ 2 + d ^ 2) * (e ^ 2 + f ^ 2) := by ring
  rw [h, h1, h2, h3]
  norm_num

/-- C1: for every key snapshot and state (hence for every real yaw, pitch and
roll the accumulators reach), the rotation written by `GetPose` into the head
pose and by `RunFrame` into the left-controller pose has squared norm exactly
1 over the reals, with no normalisation step. -/
theorem C1_quaternion_unit_norm (keys : KeySnapshot) (s : DriverState ℝ) :
    (GetPose Real.cos Real.sin keys s).1.qRotation.normSq = 1 ∧
    (RunFrame Real.cos Real.sin keys s).left_pose.qRotation.normSq = 1 := by
  constructor
  · simp only [GetPose, HmdQuaternion_t.normSq]
    exact euler_norm _ _ _ _ _ _ (Real.cos_sq_add_sin_sq _) (Real.cos_sq_add_sin_sq _)
      (Real.cos_sq_add_sin_sq _)
  · simp only [RunFrame, HmdQuaternion_t.normSq]
    exact euler_norm _ _ _ _ _ _ (Real.cos_sq_add_sin_sq _) (Real.cos_sq_add_sin_sq _)
      (Real.cos_sq_add_sin_sq _)

/-! ### Frame lemmas for the head step -/

section HeadStep

variable {α : Type} [Field α] (cos sin : α → α) (keys : KeySnapshot) (s : DriverState α)

theorem RunFrame_head_calls :
    (RunFrame_head cos sin keys s).1
      = if s.m_unObjectId = k_unTrackedDeviceIndexInvalid then []
        else [HostCall.TrackedDevicePoseUpdated s.m_unObjectId (GetPose cos sin keys s).1] := by
  unfold RunFrame_head
  split <;> simp_all

theorem RunFrame_head_state :
    (RunFrame_head cos sin keys s).2
      = if s.m_unObjectId = k_unTrackedDeviceIndexInvalid then s
        else (GetPose cos sin keys s).2 := by
  unfold RunFrame_head
  split <;> simp_all

@[simp] theorem RunFrame_head_controller_left :
    (RunFrame_head cos sin keys s).2.controller_left = s.controller_left := by
  rw [RunFrame_head_state]; split <;> simp [GetPose]

@[simp] theorem RunFrame_head_controller_right :
    (RunFrame_head cos sin keys s).2.controller_right = s.controller_right := by
  rw [RunFrame_head_state]; split <;> simp [GetPose]

@[simp] theorem RunFrame_head_cyaw : (RunFrame_head cos sin keys s).2.cyaw = s.cyaw := by
  rw [RunFrame_head_state]; split <;> simp [GetPose]

@[simp] theorem RunFrame_head_cpitch : (RunFrame_head cos sin keys s).2.cpitch = s.cpitch := by
  rw [RunFrame_head_state]; split <;> simp [GetPose]

@[simp] theorem RunFrame_head_croll : (RunFrame_head cos sin keys s).2.croll = s.croll := by
  rw [RunFrame_head_state]; split <;> simp [GetPose]

@[simp] theorem RunFrame_head_cpX : (RunFrame_head cos sin keys s).2.cpX = s.cpX := by
  rw [RunFrame_head_state]; split <;> simp [GetPose]

@[simp] theorem RunFrame_head_cpY : (RunFrame_head cos sin keys s).2.cpY = s.cpY := by
  rw [RunFrame_head_state]; split <;> simp [GetPose]

@[simp] theorem RunFrame_head_cpZ : (RunFrame_head cos sin keys s).2.cpZ = s.cpZ := by
  rw [RunFrame_head_state]; split <;> simp [GetPose]

@[simp] theorem RunFrame_head_c2pX : (RunFrame_head cos sin keys s).2.c2pX = s.c2pX := by
  rw [RunFrame_head_state]; split <;> simp [GetPose]

@[simp] theorem RunFrame_head_c2pY : (RunFrame_head cos sin keys s).2.c2pY = s.c2pY := by
  rw [RunFrame_head_state]; split <;> simp [GetPose]

@[simp] theorem RunFrame_head_c2pZ : (RunFrame_head cos sin keys s).2.c2pZ = s.c2pZ := by
  rw [RunFrame_head_state]; split <;> simp [GetPose]

/-- The host calls of one frame, block by block in program order. -/
theorem RunFrame_calls :
    (RunFrame cos sin keys s).calls
      = (RunFrame_head cos sin keys s).1
        ++ RunFrame_controller1_input keys s.controller_left.object_id_
            s.controller_right.controller_state_
        ++ [HostCall.TrackedDevicePoseUpdated s.controller_left.object_id_
              (RunFrame cos sin keys s).left_pose]
        ++ RunFrame_controller2_input keys s.controller_right.object_id_
            s.controller_right.controller_state_
        ++ [HostCall.TrackedDevicePoseUpdated s.controller_right.object_id_
              (RunFrame cos sin keys s).right_pose] := by
  simp [RunFrame, DummyController.getObjectID, DummyController.GetPose,
    DummyController.updateControllerPose, DummyController.GetControllerState]

end HeadStep

/-! ### The conversion over the reals -/

theorem GetPose_qRotation_real (keys : KeySnapshot) (s : DriverState ℝ) :
    (GetPose Real.cos Real.sin keys s).1.qRotation
      = specConversion Real.cos Real.sin (GetPose Real.cos Real.sin keys s).2.yaw
          (GetPose Real.cos Real.sin keys s).2.pitch
          (GetPose Real.cos Real.sin keys s).2.roll := by
  simp only [GetPose, specConversion, half_eq]

theorem RunFrame_left_qRotation_real (keys : KeySnapshot) (s : DriverState ℝ) :
    (RunFrame Real.cos Real.sin keys s).left_pose.qRotation
      = specConversion Real.cos Real.sin (RunFrame Real.cos Real.sin keys s).state.cyaw
          (RunFrame Real.cos Real.sin keys s).state.cpitch
          (RunFrame Real.cos Real.sin keys s).state.croll := by
  simp only [RunFrame, specConversion, half_eq]

theorem specConversion_pure_yaw (yaw : ℝ) :
    specConversion Real.cos Real.sin yaw 0 0
      = { w := Real.cos (yaw / 2), x := 0, y := 0, z := Real.sin (yaw / 2) } := by
  simp [specConversion]

/-- C2: the rotation `GetPose` writes into the head pose and the rotation
`RunFrame` writes into the left-controller pose (the pose it then pushes for
the left controller) are the conversion of section 4.1 applied to the
post-increment `(yaw, pitch, roll)`, respectively `(cyaw, cpitch, croll)`:
both bodies use the same function of their three angles. -/
theorem C2_rotation_refines_spec_conversion (keys : KeySnapshot) (s : DriverState ℝ) :
    (GetPose Real.cos Real.sin keys s).1.qRotation
      = specConversion Real.cos Real.sin (GetPose Real.cos Real.sin keys s).2.yaw
          (GetPose Real.cos Real.sin keys s).2.pitch (GetPose Real.cos Real.sin keys s).2.roll ∧
    (RunFrame Real.cos Real.sin keys s).left_pose.qRotation
      = specConversion Real.cos Real.sin (RunFrame Real.cos Real.sin keys s).state.cyaw
          (RunFrame Real.cos Real.sin keys s).state.cpitch
          (RunFrame Real.cos Real.sin keys s).state.croll ∧
    HostCall.TrackedDevicePoseUpdated s.controller_left.getObjectID
        (RunFrame Real.cos Real.sin keys s).left_pose
      ∈ (RunFrame Real.cos Real.sin keys s).calls := by
  refine ⟨GetPose_qRotation_real keys s, RunFrame_left_qRotation_real keys s, ?_⟩
  rw [RunFrame_calls]
  simp [DummyController.getObjectID]

/-! ### The input blocks -/

section InputBlocks

variable {α : Type} [Field α] (keys : KeySnapshot) (id : Nat) (st : VRControllerState_t α)

theorem controller1_input_mem (c : HostCall α)
    (hc : c ∈ RunFrame_controller1_input keys id st) :
    c.isInput = true ∧ c.unWhichDevice = id := by
  simp only [RunFrame_controller1_input, List.mem_append] at hc
  rcases hc with (((hc | hc) | hc) | hc) | hc <;> split at hc <;>
    simp only [List.mem_cons, List.mem_singleton, List.not_mem_nil, or_false] at hc <;>
    rcases hc with rfl | rfl <;>
    simp [HostCall.isInput, HostCall.isButton, HostCall.isAxis, HostCall.unWhichDevice]

theorem controller2_input_mem (c : HostCall α)
    (hc : c ∈ RunFrame_controller2_input keys id st) :
    c.isInput = true ∧ c.unWhichDevice = id := by
  simp only [RunFrame_controller2_input, List.mem_append] at hc
  rcases hc with ((((hc | hc) | hc) | hc) | hc) | hc <;> split at hc <;>
    simp only [List.mem_cons, List.mem_singleton, List.not_mem_nil, or_false] at hc <;>
    rcases hc with rfl | rfl <;>
    simp [HostCall.isInput, HostCall.isButton, HostCall.isAxis, HostCall.unWhichDevice]

theorem controller1_input_counts :
    (RunFrame_controller1_input keys id st).countP HostCall.isButton = 5 ∧
    (RunFrame_controller1_input keys id st).countP HostCall.isAxis = 1 ∧
    (RunFrame_controller1_input keys id st).countP HostCall.isPoseUpdate = 0 := by
  simp only [RunFrame_controller1_input, List.countP_append]
  refine ⟨?_, ?_, ?_⟩ <;> split_ifs <;>
    simp [List.countP_cons, HostCall.isButton, HostCall.isAxis, HostCall.isPoseUpdate]

theorem controller2_input_counts :
    (RunFrame_controller2_input keys id st).countP HostCall.isButton = 5 ∧
    (RunFrame_controller2_input keys id st).countP HostCall.isAxis = 2 ∧
    (RunFrame_controller2_input keys id st).countP HostCall.isPoseUpdate = 0 := by
  simp only [RunFrame_controller2_input, List.countP_append]
  refine ⟨?_, ?_, ?_⟩ <;> split_ifs <;>
    simp [List.countP_cons, HostCall.isButton, HostCall.isAxis, HostCall.isPoseUpdate]

end InputBlocks

/-- C3: in one `RunFrame` call with the HMD activated (the controllers need no
assumption), the host calls are, in order: the head pose update, a block of
button/axis notifications all carrying the left controller index, the left
pose update, a block of button/axis notifications all carrying the right
controller index, the right pose update; there are exactly three pose
updates in the frame, one per device. -/
theorem C3_notification_order (keys : KeySnapshot) (s : DriverState ℝ)
    (hact : s.m_unObjectId ≠ k_unTrackedDeviceIndexInvalid) :
    ∃ (ph pl pr : DriverPose_t ℝ) (L R : List (HostCall ℝ)),
      (RunFrame Real.cos Real.sin keys s).calls
        = [HostCall.TrackedDevicePoseUpdated s.m_unObjectId ph] ++ L
          ++ [HostCall.TrackedDevicePoseUpdated s.controller_left.getObjectID pl] ++ R
          ++ [HostCall.TrackedDevicePoseUpdated s.controller_right.getObjectID pr] ∧
      (∀ c ∈ L, c.isInput = true ∧ c.unWhichDevice = s.controller_left.getObjectID) ∧
      (∀ c ∈ R, c.isInput = true ∧ c.unWhichDevice = s.controller_right.getObjectID) ∧
      (RunFrame Real.cos Real.sin keys s).calls.countP HostCall.isPoseUpdate = 3 := by
  refine ⟨(GetPose Real.cos Real.sin keys s).1, (RunFrame Real.cos Real.sin keys s).left_pose,
    (RunFrame Real.cos Real.sin keys s).right_pose,
    RunFrame_controller1_input keys s.controller_left.object_id_
      s.controller_right.controller_state_,
    RunFrame_controller2_input keys s.controller_right.object_id_
      s.controller_right.controller_state_, ?_, ?_, ?_, ?_⟩
  · rw [RunFrame_calls, RunFrame_head_calls, if_neg hact]
    rfl
  · exact fun c hc => controller1_input_mem keys _ _ c hc
  · exact fun c hc => controller2_input_mem keys _ _ c hc
  · rw [RunFrame_calls, RunFrame_head_calls, if_neg hact]
    simp only [List.countP_append, (controller1_input_counts keys _ _).2.2,
      (controller2_input_counts keys _ _).2.2]
    simp [List.countP_cons, HostCall.isPoseUpdate]

/-- Witness of C3 at the activated state with no key down. -/
theorem C3_notification_order_witness :
    (activatedState : DriverState ℝ).m_unObjectId ≠ k_unTrackedDeviceIndexInvalid ∧
    ∃ (ph pl pr : DriverPose_t ℝ) (L R : List (HostCall ℝ)),
      (RunFrame Real.cos Real.sin noKeys activatedState).calls
        = [HostCall.TrackedDevicePoseUpdated (activatedState : DriverState ℝ).m_unObjectId ph]
          ++ L
          ++ [HostCall.TrackedDevicePoseUpdated
                (activatedState : DriverState ℝ).controller_left.getObjectID pl]
          ++ R
          ++ [HostCall.TrackedDevicePoseUpdated
                (activatedState : DriverState ℝ).controller_right.getObjectID pr] ∧
      (∀ c ∈ L, c.isInput = true ∧
        c.unWhichDevice = (activatedState : DriverState ℝ).controller_left.getObjectID) ∧
      (∀ c ∈ R, c.isInput = true ∧
        c.unWhichDevice = (activatedState : DriverState ℝ).controller_right.getObjectID) ∧
      (RunFrame Real.cos Real.sin noKeys activatedState).calls.countP HostCall.isPoseUpdate
        = 3 :=
  ⟨by decide, C3_notification_order noKeys activatedState (by decide)⟩

section KeyLemmas

@[simp] theorem keyDown_noKeys (vk : Nat) : keyDown noKeys vk = false := by
  simp [keyDown, noKeys]

@[simp] theorem keyDown_onlyKey (k vk : Nat) : keyDown (onlyKey k) vk = decide (vk = k) := by
  by_cases h : vk = k <;> simp [keyDown, onlyKey, h]

end KeyLemmas

/-- C4 (evaluation at the failing input): in the state before any activation,
where all three device indices are invalid, a frame with no key down makes no
head pose update (the guard of line 424) but still makes 15 host calls for
the two controllers, two pose updates, ten button and three axis
notifications, each carrying the invalid index. -/
theorem C4_inactive_controllers_still_notified :
    (initialState : DriverState ℝ).m_unObjectId = k_unTrackedDeviceIndexInvalid ∧
    (initialState : DriverState ℝ).controller_left.getObjectID
      = k_unTrackedDeviceIndexInvalid ∧
    (initialState : DriverState ℝ).controller_right.getObjectID
      = k_unTrackedDeviceIndexInvalid ∧
    (RunFrame Real.cos Real.sin noKeys initialState).calls.length = 15 ∧
    (RunFrame Real.cos Real.sin noKeys initialState).calls.countP HostCall.isPoseUpdate = 2 ∧
    (RunFrame Real.cos Real.sin noKeys initialState).calls.countP HostCall.isButton = 10 ∧
    (RunFrame Real.cos Real.sin noKeys initialState).calls.countP HostCall.isAxis = 3 ∧
    ∀ c ∈ (RunFrame Real.cos Real.sin noKeys initialState).calls,
      c.unWhichDevice = k_unTrackedDeviceIndexInvalid := by
  refine ⟨rfl, rfl, rfl, ?_, ?_, ?_, ?_, ?_⟩ <;>
    rw [RunFrame_calls, RunFrame_head_calls] <;>
    simp [RunFrame_controller1_input, RunFrame_controller2_input, initialState,
      stateWithIndices, List.countP_cons, HostCall.isPoseUpdate, HostCall.isButton,
      HostCall.isAxis, HostCall.unWhichDevice]

/-! ### The controller orientation accumulators after one frame -/

section ControllerAngles

variable {α : Type} [Field α] (cos sin : α → α) (keys : KeySnapshot) (s : DriverState α)

theorem RunFrame_state_cyaw :
    (RunFrame cos sin keys s).state.cyaw
      = if keyDown keys 72 then (if keyDown keys 70 then s.cyaw + 0.1 else s.cyaw) + -0.1
        else if keyDown keys 70 then s.cyaw + 0.1 else s.cyaw := by
  simp [RunFrame]

theorem RunFrame_state_cpitch :
    (RunFrame cos sin keys s).state.cpitch = if keyDown keys 66 then 0 else s.cpitch := by
  simp [RunFrame]

theorem RunFrame_state_croll :
    (RunFrame cos sin keys s).state.croll
      = if keyDown keys 66 then 0
        else if keyDown keys 71 then (if keyDown keys 84 then s.croll + 0.1 else s.croll) + -0.1
        else if keyDown keys 84 then s.croll + 0.1 else s.croll := by
  simp [RunFrame]

end ControllerAngles

/-- C5 (evaluation at the failing input): from the initial state, one frame
with only F (70) down brings `cyaw` to 0.1; a following frame with only the
controller recenter key B (66) down zeroes `cpitch` and `croll` but leaves
`cyaw` at 0.1, so the controller orientation accumulator is not (0,0,0). -/
theorem C5_recenter_leaves_cyaw :
    keyDown (onlyKey 66) 66 = true ∧
    (RunFrame Real.cos Real.sin (onlyKey 70) initialState).state.cyaw = 0.1 ∧
    (RunFrame Real.cos Real.sin (onlyKey 66)
      (RunFrame Real.cos Real.sin (onlyKey 70) initialState).state).state.cyaw = 0.1 ∧
    (RunFrame Real.cos Real.sin (onlyKey 66)
      (RunFrame Real.cos Real.sin (onlyKey 70) initialState).state).state.cyaw ≠ 0 ∧
    (RunFrame Real.cos Real.sin (onlyKey 66)
      (RunFrame Real.cos Real.sin (onlyKey 70) initialState).state).state.cpitch = 0 ∧
    (RunFrame Real.cos Real.sin (onlyKey 66)
      (RunFrame Real.cos Real.sin (onlyKey 70) initialState).state).state.croll = 0 := by
  have h1 : (RunFrame Real.cos Real.sin (onlyKey 70) initialState).state.cyaw = 0.1 := by
    rw [RunFrame_state_cyaw]
    simp [initialState, stateWithIndices]
  have h2 : (RunFrame Real.cos Real.sin (onlyKey 66)
      (RunFrame Real.cos Real.sin (onlyKey 70) initialState).state).state.cyaw = 0.1 := by
    rw [RunFrame_state_cyaw, h1]
    simp
  refine ⟨by simp, h1, h2, ?_, ?_, ?_⟩
  · rw [h2]; norm_num
  · rw [RunFrame_state_cpitch]; simp
  · rw [RunFrame_state_croll]; simp

/-! ### Keys other than numpad 9 -/

theorem keyDown_congr (keys keys' : KeySnapshot) (vk : Nat) (h : keys' vk = keys vk) :
    keyDown keys' vk = keyDown keys vk := by
  simp [keyDown, h]

/-- C6: when the head recenter key NUMPAD9 is down, `GetPose` leaves
`(yaw, pitch, roll)` at exactly (0,0,0) whatever rotation keys are held; and
NUMPAD9 has no effect on the other accumulators: a snapshot `keys2` that
agrees with `keys` on every key except NUMPAD9 leaves the same head position
and the same controller accumulators, after `GetPose` and after a whole
`RunFrame`; `GetPose` does not change the controller accumulators at all. -/
theorem C6_head_recenter (keys keys2 : KeySnapshot) (s : DriverState ℝ)
    (h9 : keyDown keys VK_NUMPAD9 = true)
    (hsame : ∀ vk, vk ≠ VK_NUMPAD9 → keys2 vk = keys vk) :
    (GetPose Real.cos Real.sin keys s).2.yaw = 0 ∧
    (GetPose Real.cos Real.sin keys s).2.pitch = 0 ∧
    (GetPose Real.cos Real.sin keys s).2.roll = 0 ∧
    (GetPose Real.cos Real.sin keys2 s).2.positionAndControllerAccumulators
      = (GetPose Real.cos Real.sin keys s).2.positionAndControllerAccumulators ∧
    (GetPose Real.cos Real.sin keys s).2.positionAndControllerAccumulators.drop 3
      = s.positionAndControllerAccumulators.drop 3 ∧
    (RunFrame Real.cos Real.sin keys2 s).state.positionAndControllerAccumulators
      = (RunFrame Real.cos Real.sin keys s).state.positionAndControllerAccumulators := by
  have hk : ∀ vk, vk ≠ VK_NUMPAD9 → keyDown keys2 vk = keyDown keys vk :=
    fun vk hvk => keyDown_congr keys keys2 vk (hsame vk hvk)
  have hG : (GetPose Real.cos Real.sin keys2 s).2.positionAndControllerAccumulators
      = (GetPose Real.cos Real.sin keys s).2.positionAndControllerAccumulators := by
    simp only [GetPose, DriverState.positionAndControllerAccumulators,
      hk VK_UP (by decide), hk VK_DOWN (by decide), hk VK_LEFT (by decide),
      hk VK_RIGHT (by decide), hk VK_PRIOR (by decide), hk VK_NEXT (by decide),
      hk VK_END (by decide)]
  refine ⟨?_, ?_, ?_, hG, ?_, ?_⟩
  · simp [GetPose, h9]
  · simp [GetPose, h9]
  · simp [GetPose, h9]
  · simp [GetPose, DriverState.positionAndControllerAccumulators]
  · have hpX : (RunFrame_head Real.cos Real.sin keys2 s).2.pX
        = (RunFrame_head Real.cos Real.sin keys s).2.pX := by
      simp only [RunFrame_head_state]; split
      · rfl
      · simp only [GetPose, hk VK_LEFT (by decide), hk VK_RIGHT (by decide),
          hk VK_END (by decide)]
    have hpY : (RunFrame_head Real.cos Real.sin keys2 s).2.pY
        = (RunFrame_head Real.cos Real.sin keys s).2.pY := by
      simp only [RunFrame_head_state]; split
      · rfl
      · simp only [GetPose, hk VK_PRIOR (by decide), hk VK_NEXT (by decide),
          hk VK_END (by decide)]
    have hpZ : (RunFrame_head Real.cos Real.sin keys2 s).2.pZ
        = (RunFrame_head Real.cos Real.sin keys s).2.pZ := by
      simp only [RunFrame_head_state]; split
      · rfl
      · simp only [GetPose, hk VK_UP (by decide), hk VK_DOWN (by decide),
          hk VK_END (by decide)]
    simp only [RunFrame, DriverState.positionAndControllerAccumulators, hpX, hpY, hpZ,
      RunFrame_head_cyaw, RunFrame_head_cpitch, RunFrame_head_croll, RunFrame_head_cpX,
      RunFrame_head_cpY, RunFrame_head_cpZ, RunFrame_head_c2pX, RunFrame_head_c2pY,
      RunFrame_head_c2pZ,
      hk 70 (by decide), hk 72 (by decide), hk 84 (by decide), hk 71 (by decide),
      hk 66 (by decide), hk 87 (by decide), hk 83 (by decide), hk 65 (by decide),
      hk 68 (by decide), hk 81 (by decide), hk 69 (by decide), hk 82 (by decide),
      hk 73 (by decide), hk 75 (by decide), hk 74 (by decide), hk 76 (by decide),
      hk 85 (by decide), hk 79 (by decide), hk 80 (by decide)]

@[simp] theorem keyDown_keysDown (l : List Nat) (vk : Nat) :
    keyDown (keysDown l) vk = decide (vk ∈ l) := by
  by_cases h : vk ∈ l <;> simp [keyDown, keysDown, h]

/-- Witness of C6: NUMPAD9 and the yaw key NUMPAD3 held together, compared
with NUMPAD3 alone, from the activated state. -/
theorem C6_head_recenter_witness :
    keyDown (keysDown [VK_NUMPAD9, VK_NUMPAD3]) VK_NUMPAD9 = true ∧
    (∀ vk, vk ≠ VK_NUMPAD9 →
      keysDown [VK_NUMPAD3] vk = keysDown [VK_NUMPAD9, VK_NUMPAD3] vk) ∧
    (GetPose Real.cos Real.sin (keysDown [VK_NUMPAD9, VK_NUMPAD3]) activatedState).2.yaw = 0 ∧
    (GetPose Real.cos Real.sin (keysDown [VK_NUMPAD9, VK_NUMPAD3]) activatedState).2.pitch = 0 ∧
    (GetPose Real.cos Real.sin (keysDown [VK_NUMPAD9, VK_NUMPAD3]) activatedState).2.roll = 0 ∧
    (GetPose Real.cos Real.sin (keysDown [VK_NUMPAD3])
        activatedState).2.positionAndControllerAccumulators
      = (GetPose Real.cos Real.sin (keysDown [VK_NUMPAD9, VK_NUMPAD3])
          activatedState).2.positionAndControllerAccumulators ∧
    (GetPose Real.cos Real.sin (keysDown [VK_NUMPAD9, VK_NUMPAD3])
        activatedState).2.positionAndControllerAccumulators.drop 3
      = (activatedState : DriverState ℝ).positionAndControllerAccumulators.drop 3 ∧
    (RunFrame Real.cos Real.sin (keysDown [VK_NUMPAD3])
        activatedState).state.positionAndControllerAccumulators
      = (RunFrame Real.cos Real.sin (keysDown [VK_NUMPAD9, VK_NUMPAD3])
          activatedState).state.positionAndControllerAccumulators :=
  have h9 : keyDown (keysDown [VK_NUMPAD9, VK_NUMPAD3]) VK_NUMPAD9 = true := by simp
  have hsame : ∀ vk, vk ≠ VK_NUMPAD9 →
      keysDown [VK_NUMPAD3] vk = keysDown [VK_NUMPAD9, VK_NUMPAD3] vk := by
    intro vk hvk
    simp [keysDown, hvk]
  ⟨h9, hsame, C6_head_recenter _ _ activatedState h9 hsame⟩

/-- C7: in every `RunFrame` call the rotation of `right_pose` equals the
rotation of the `left_pose` computed in the same call; the right pose is the
one pushed by the last host call of the frame, the left pose is pushed
earlier in the same frame, and the two stored controller poses have the same
rotation afterwards. -/
theorem C7_right_rotation_copies_left (keys : KeySnapshot) (s : DriverState ℝ) :
    (RunFrame Real.cos Real.sin keys s).right_pose.qRotation
      = (RunFrame Real.cos Real.sin keys s).left_pose.qRotation ∧
    (RunFrame Real.cos Real.sin keys s).calls.getLast?
      = some (HostCall.TrackedDevicePoseUpdated s.controller_right.getObjectID
          (RunFrame Real.cos Real.sin keys s).right_pose) ∧
    HostCall.TrackedDevicePoseUpdated s.controller_left.getObjectID
        (RunFrame Real.cos Real.sin keys s).left_pose
      ∈ (RunFrame Real.cos Real.sin keys s).calls ∧
    (RunFrame Real.cos Real.sin keys s).state.controller_right.GetPose.qRotation
      = (RunFrame Real.cos Real.sin keys s).state.controller_left.GetPose.qRotation := by
  refine ⟨?_, ?_, ?_, ?_⟩
  · simp only [RunFrame]
  · rw [RunFrame_calls]
    exact List.getLast?_concat _
  · rw [RunFrame_calls]
    simp [DummyController.getObjectID]
  · simp only [RunFrame, DummyController.GetPose, DummyController.updateControllerPose]

/-! ### The head accumulators after one frame -/

theorem RunFrame_state_head_angles (keys : KeySnapshot) (s : DriverState ℝ) :
    (RunFrame Real.cos Real.sin keys s).state.yaw
      = (RunFrame_head Real.cos Real.sin keys s).2.yaw ∧
    (RunFrame Real.cos Real.sin keys s).state.pitch
      = (RunFrame_head Real.cos Real.sin keys s).2.pitch ∧
    (RunFrame Real.cos Real.sin keys s).state.roll
      = (RunFrame_head Real.cos Real.sin keys s).2.roll := by
  simp [RunFrame]

/-- C8: from a state with every accumulator at zero and the HMD activated,
one `RunFrame` with exactly NUMPAD3 down leaves `yaw = 0.01`,
`pitch = roll = 0`, and its first host call is the head pose update with
rotation `(cos 0.005, 0, 0, sin 0.005)` and position `(0,0,0)`.  In general,
whenever the post-increment pitch and roll are zero, the head conversion and
the controller conversion yield `(cos (yaw/2), 0, 0, sin (yaw/2))`. -/
theorem C8_single_yaw_increment (keys : KeySnapshot) (s : DriverState ℝ)
    (hzero : s.accumulatorsZero)
    (hact : s.m_unObjectId ≠ k_unTrackedDeviceIndexInvalid)
    (hkeys : ∀ vk, keyDown keys vk = true ↔ vk = VK_NUMPAD3) :
    (RunFrame Real.cos Real.sin keys s).state.yaw = 0.01 ∧
    (RunFrame Real.cos Real.sin keys s).state.pitch = 0 ∧
    (RunFrame Real.cos Real.sin keys s).state.roll = 0 ∧
    (∃ pose : DriverPose_t ℝ,
      (RunFrame Real.cos Real.sin keys s).calls.head?
        = some (HostCall.TrackedDevicePoseUpdated s.m_unObjectId pose) ∧
      pose.qRotation = { w := Real.cos 0.005, x := 0, y := 0, z := Real.sin 0.005 } ∧
      pose.vecPosition = (0, 0, 0)) ∧
    (∀ (k : KeySnapshot) (u : DriverState ℝ),
      (GetPose Real.cos Real.sin k u).2.pitch = 0 →
      (GetPose Real.cos Real.sin k u).2.roll = 0 →
      (GetPose Real.cos Real.sin k u).1.qRotation
        = { w := Real.cos ((GetPose Real.cos Real.sin k u).2.yaw / 2), x := 0, y := 0,
            z := Real.sin ((GetPose Real.cos Real.sin k u).2.yaw / 2) }) ∧
    (∀ (k : KeySnapshot) (u : DriverState ℝ),
      (RunFrame Real.cos Real.sin k u).state.cpitch = 0 →
      (RunFrame Real.cos Real.sin k u).state.croll = 0 →
      (RunFrame Real.cos Real.sin k u).left_pose.qRotation
        = { w := Real.cos ((RunFrame Real.cos Real.sin k u).state.cyaw / 2), x := 0, y := 0,
            z := Real.sin ((RunFrame Real.cos Real.sin k u).state.cyaw / 2) }) := by
  obtain ⟨hy, hp, hr, hX, hY, hZ, -⟩ := hzero
  have k3 : keyDown keys VK_NUMPAD3 = true := (hkeys VK_NUMPAD3).2 rfl
  have kf : ∀ vk, vk ≠ VK_NUMPAD3 → keyDown keys vk = false := by
    intro vk hvk
    cases hh : keyDown keys vk
    · rfl
    · exact absurd ((hkeys vk).1 hh) hvk
  have hyaw : (GetPose Real.cos Real.sin keys s).2.yaw = 0.01 := by
    simp [GetPose, k3, kf VK_NUMPAD1 (by decide), kf VK_NUMPAD9 (by decide), hy]
  have hpitch : (GetPose Real.cos Real.sin keys s).2.pitch = 0 := by
    simp [GetPose, kf VK_NUMPAD4 (by decide), kf VK_NUMPAD6 (by decide), hp]
  have hroll : (GetPose Real.cos Real.sin keys s).2.roll = 0 := by
    simp [GetPose, kf VK_NUMPAD8 (by decide), kf VK_NUMPAD2 (by decide), hr]
  have hpos : (GetPose Real.cos Real.sin keys s).1.vecPosition = (0, 0, 0) := by
    simp [GetPose, kf VK_UP (by decide), kf VK_DOWN (by decide), kf VK_LEFT (by decide),
      kf VK_RIGHT (by decide), kf VK_PRIOR (by decide), kf VK_NEXT (by decide), hX, hY, hZ]
  have hst := RunFrame_state_head_angles keys s
  rw [RunFrame_head_state, if_neg hact] at hst
  refine ⟨by rw [hst.1, hyaw], by rw [hst.2.1, hpitch], by rw [hst.2.2, hroll], ?_, ?_, ?_⟩
  · refine ⟨(GetPose Real.cos Real.sin keys s).1, ?_, ?_, hpos⟩
    · rw [RunFrame_calls, RunFrame_head_calls, if_neg hact]
      rfl
    · rw [GetPose_qRotation_real, hyaw, hpitch, hroll, specConversion_pure_yaw]
      norm_num
  · intro k u h1 h2
    rw [GetPose_qRotation_real, h1, h2, specConversion_pure_yaw]
  · intro k u h1 h2
    rw [RunFrame_left_qRotation_real, h1, h2, specConversion_pure_yaw]

/-- Witness of C8 at the activated state with exactly NUMPAD3 down. -/
theorem C8_single_yaw_increment_witness :
    (activatedState : DriverState ℝ).accumulatorsZero ∧
    (activatedState : DriverState ℝ).m_unObjectId ≠ k_unTrackedDeviceIndexInvalid ∧
    (∀ vk, keyDown (onlyKey VK_NUMPAD3) vk = true ↔ vk = VK_NUMPAD3) ∧
    (RunFrame Real.cos Real.sin (onlyKey VK_NUMPAD3) activatedState).state.yaw = 0.01 ∧
    (RunFrame Real.cos Real.sin (onlyKey VK_NUMPAD3) activatedState).state.pitch = 0 ∧
    (RunFrame Real.cos Real.sin (onlyKey VK_NUMPAD3) activatedState).state.roll = 0 ∧
    (∃ pose : DriverPose_t ℝ,
      (RunFrame Real.cos Real.sin (onlyKey VK_NUMPAD3) activatedState).calls.head?
        = some (HostCall.TrackedDevicePoseUpdated
            (activatedState : DriverState ℝ).m_unObjectId pose) ∧
      pose.qRotation = { w := Real.cos 0.005, x := 0, y := 0, z := Real.sin 0.005 } ∧
      pose.vecPosition = (0, 0, 0)) ∧
    (∀ (k : KeySnapshot) (u : DriverState ℝ),
      (GetPose Real.cos Real.sin k u).2.pitch = 0 →
      (GetPose Real.cos Real.sin k u).2.roll = 0 →
      (GetPose Real.cos Real.sin k u).1.qRotation
        = { w := Real.cos ((GetPose Real.cos Real.sin k u).2.yaw / 2), x := 0, y := 0,
            z := Real.sin ((GetPose Real.cos Real.sin k u).2.yaw / 2) }) ∧
    (∀ (k : KeySnapshot) (u : DriverState ℝ),
      (RunFrame Real.cos Real.sin k u).state.cpitch = 0 →
      (RunFrame Real.cos Real.sin k u).state.croll = 0 →
      (RunFrame Real.cos Real.sin k u).left_pose.qRotation
        = { w := Real.cos ((RunFrame Real.cos Real.sin k u).state.cyaw / 2), x := 0, y := 0,
            z := Real.sin ((RunFrame Real.cos Real.sin k u).state.cyaw / 2) }) :=
  have hzero : (activatedState : DriverState ℝ).accumulatorsZero := by
    simp [DriverState.accumulatorsZero, activatedState, stateWithIndices]
  have hact : (activatedState : DriverState ℝ).m_unObjectId ≠ k_unTrackedDeviceIndexInvalid := by
    decide
  have hkeys : ∀ vk, keyDown (onlyKey VK_NUMPAD3) vk = true ↔ vk = VK_NUMPAD3 := by
    intro vk
    simp
  ⟨hzero, hact, hkeys, C8_single_yaw_increment (onlyKey VK_NUMPAD3) activatedState hzero hact hkeys⟩

/-- C9: when the post-increment `yaw`, `pitch` and `roll` are all zero the
rotation `GetPose` writes into the head pose is the identity quaternion
`(1,0,0,0)`, and when the post-increment `cyaw`, `cpitch` and `croll` are all
zero so is the rotation `RunFrame` writes into the left-controller pose. -/
theorem C9_zero_angles_identity (keys : KeySnapshot) (s : DriverState ℝ) :
    ((GetPose Real.cos Real.sin keys s).2.yaw = 0 →
      (GetPose Real.cos Real.sin keys s).2.pitch = 0 →
      (GetPose Real.cos Real.sin keys s).2.roll = 0 →
      (GetPose Real.cos Real.sin keys s).1.qRotation = HmdQuaternion_Init 1 0 0 0) ∧
    ((RunFrame Real.cos Real.sin keys s).state.cyaw = 0 →
      (RunFrame Real.cos Real.sin keys s).state.cpitch = 0 →
      (RunFrame Real.cos Real.sin keys s).state.croll = 0 →
      (RunFrame Real.cos Real.sin keys s).left_pose.qRotation = HmdQuaternion_Init 1 0 0 0) := by
  constructor
  · intro h1 h2 h3
    rw [GetPose_qRotation_real, h1, h2, h3]
    simp [specConversion, HmdQuaternion_Init]
  · intro h1 h2 h3
    rw [RunFrame_left_qRotation_real, h1, h2, h3]
    simp [specConversion, HmdQuaternion_Init]

/-- Witness of C9 at the activated state with no key down. -/
theorem C9_zero_angles_identity_witness :
    ((GetPose Real.cos Real.sin noKeys activatedState).2.yaw = (0 : ℝ) ∧
      (GetPose Real.cos Real.sin noKeys activatedState).2.pitch = (0 : ℝ) ∧
      (GetPose Real.cos Real.sin noKeys activatedState).2.roll = (0 : ℝ) ∧
      (GetPose Real.cos Real.sin noKeys activatedState).1.qRotation
        = HmdQuaternion_Init 1 0 0 0) ∧
    ((RunFrame Real.cos Real.sin noKeys activatedState).state.cyaw = (0 : ℝ) ∧
      (RunFrame Real.cos Real.sin noKeys activatedState).state.cpitch = (0 : ℝ) ∧
      (RunFrame Real.cos Real.sin noKeys activatedState).state.croll = (0 : ℝ) ∧
      (RunFrame Real.cos Real.sin noKeys activatedState).left_pose.qRotation
        = HmdQuaternion_Init 1 0 0 0) :=
  have hy : (GetPose Real.cos Real.sin noKeys activatedState).2.yaw = (0 : ℝ) := by
    simp [GetPose, activatedState, stateWithIndices]
  have hp : (GetPose Real.cos Real.sin noKeys activatedState).2.pitch = (0 : ℝ) := by
    simp [GetPose, activatedState, stateWithIndices]
  have hr : (GetPose Real.cos Real.sin noKeys activatedState).2.roll = (0 : ℝ) := by
    simp [GetPose, activatedState, stateWithIndices]
  have cy : (RunFrame Real.cos Real.sin noKeys activatedState).state.cyaw = (0 : ℝ) := by
    rw [RunFrame_state_cyaw]; simp [activatedState, stateWithIndices]
  have cp : (RunFrame Real.cos Real.sin noKeys activatedState).state.cpitch = (0 : ℝ) := by
    rw [RunFrame_state_cpitch]; simp [activatedState, stateWithIndices]
  have cr : (RunFrame Real.cos Real.sin noKeys activatedState).state.croll = (0 : ℝ) := by
    rw [RunFrame_state_croll]; simp [activatedState, stateWithIndices]
  ⟨⟨hy, hp, hr, (C9_zero_angles_identity noKeys activatedState).1 hy hp hr⟩,
    ⟨cy, cp, cr, (C9_zero_angles_identity noKeys activatedState).2 cy cp cr⟩⟩

/-! ### Input signals of the two blocks -/

section Signals

variable {α : Type} [Field α] (keys : KeySnapshot)

theorem controller1_input_signals (i j : Nat) (st su : VRControllerState_t α) :
    (RunFrame_controller1_input keys i st).filterMap HostCall.inputSignal
      = (RunFrame_controller1_input keys j su).filterMap HostCall.inputSignal := by
  simp only [RunFrame_controller1_input, List.filterMap_append]
  split_ifs <;> rfl

theorem controller2_input_signals (i j : Nat) (st su : VRControllerState_t α) :
    (RunFrame_controller2_input keys i st).filterMap HostCall.inputSignal
      = (RunFrame_controller2_input keys j su).filterMap HostCall.inputSignal := by
  simp only [RunFrame_controller2_input, List.filterMap_append]
  split_ifs <;> rfl

theorem controller1_input_length (i : Nat) (st : VRControllerState_t α) :
    (RunFrame_controller1_input keys i st).length = 6 := by
  simp only [RunFrame_controller1_input, List.length_append]
  split_ifs <;> rfl

theorem controller2_input_length (i : Nat) (st : VRControllerState_t α) :
    (RunFrame_controller2_input keys i st).length = 7 := by
  simp only [RunFrame_controller2_input, List.length_append]
  split_ifs <;> rfl

theorem RunFrame_head_signals (cos sin : α → α) (s : DriverState α) :
    (RunFrame_head cos sin keys s).1.filterMap HostCall.inputSignal = [] ∧
    (RunFrame_head cos sin keys s).1.countP HostCall.isInput = 0 := by
  rw [RunFrame_head_calls]
  split <;> constructor <;> rfl

theorem RunFrame_signals (cos sin : α → α) (s : DriverState α) :
    (RunFrame cos sin keys s).calls.filterMap HostCall.inputSignal
      = (RunFrame_controller1_input keys 0 (test_state : VRControllerState_t α)).filterMap
          HostCall.inputSignal
        ++ (RunFrame_controller2_input keys 0 (test_state : VRControllerState_t α)).filterMap
          HostCall.inputSignal := by
  rw [RunFrame_calls]
  simp only [List.filterMap_append, (RunFrame_head_signals keys cos sin s).1]
  rw [controller1_input_signals keys _ 0 _ test_state,
    controller2_input_signals keys _ 0 _ test_state]
  simp [HostCall.inputSignal]

end Signals

/-- C10: the button and axis notifications of a frame depend on the key
snapshot only.  For any two states, `RunFrame` with the same snapshot issues
the same sequence of input signals (pressed/unpressed with the button, axis
slot with its x-channel), in particular in two consecutive frames; and every
frame consists of an input-free head part, six notifications carrying the left
controller index (five button, one axis), the left pose update, seven
notifications carrying the right controller index (five button, two axis)
and the right pose update. -/
theorem C10_level_triggered (keys : KeySnapshot) (s1 s2 : DriverState ℝ) :
    (RunFrame Real.cos Real.sin keys s1).calls.filterMap HostCall.inputSignal
      = (RunFrame Real.cos Real.sin keys s2).calls.filterMap HostCall.inputSignal ∧
    (RunFrame Real.cos Real.sin keys
        (RunFrame Real.cos Real.sin keys s1).state).calls.filterMap HostCall.inputSignal
      = (RunFrame Real.cos Real.sin keys s1).calls.filterMap HostCall.inputSignal ∧
    ∃ (H L R : List (HostCall ℝ)) (pl pr : DriverPose_t ℝ),
      (RunFrame Real.cos Real.sin keys s1).calls
        = H ++ L ++ [HostCall.TrackedDevicePoseUpdated s1.controller_left.getObjectID pl]
          ++ R ++ [HostCall.TrackedDevicePoseUpdated s1.controller_right.getObjectID pr] ∧
      H.countP HostCall.isInput = 0 ∧
      (∀ c ∈ L, c.unWhichDevice = s1.controller_left.getObjectID) ∧
      L.length = 6 ∧ L.countP HostCall.isButton = 5 ∧ L.countP HostCall.isAxis = 1 ∧
      (∀ c ∈ R, c.unWhichDevice = s1.controller_right.getObjectID) ∧
      R.length = 7 ∧ R.countP HostCall.isButton = 5 ∧ R.countP HostCall.isAxis = 2 := by
  refine ⟨?_, ?_, (RunFrame_head Real.cos Real.sin keys s1).1,
    RunFrame_controller1_input keys s1.controller_left.object_id_
      s1.controller_right.controller_state_,
    RunFrame_controller2_input keys s1.controller_right.object_id_
      s1.controller_right.controller_state_,
    (RunFrame Real.cos Real.sin keys s1).left_pose,
    (RunFrame Real.cos Real.sin keys s1).right_pose,
    RunFrame_calls Real.cos Real.sin keys s1,
    (RunFrame_head_signals keys Real.cos Real.sin s1).2,
    fun c hc => (controller1_input_mem keys _ _ c hc).2,
    controller1_input_length keys _ _,
    (controller1_input_counts keys _ _).1, (controller1_input_counts keys _ _).2.1,
    fun c hc => (controller2_input_mem keys _ _ c hc).2,
    controller2_input_length keys _ _,
    (controller2_input_counts keys _ _).1, (controller2_input_counts keys _ _).2.1⟩
  · rw [RunFrame_signals, RunFrame_signals]
  · rw [RunFrame_signals, RunFrame_signals]

/-! ### Fixed-step increments -/

theorem step_real (x d : ℝ) (plus minus : Bool) :
    (if minus = true then (if plus = true then x + d else x) + -d
      else if plus = true then x + d else x) = x + specStep plus minus d := by
  cases plus <;> cases minus <;> simp [specStep]

/-- C11: with the head recenter key NUMPAD9 up, one `GetPose` call moves each
of `yaw`, `pitch`, `roll` by `specStep` of its plus and minus key with step
0.01 (NUMPAD3/1, NUMPAD4/6, NUMPAD8/2); with the controller recenter key B up,
one `RunFrame` call moves `cyaw` and `croll` by `specStep` of their keys with
step 0.1 (F/H, T/G).  `specStep` is `+d` for the plus key alone, `-d` for the
minus key alone and `0` when both are up or both are down. -/
theorem C11_fixed_step_increments (keys : KeySnapshot) (s : DriverState ℝ)
    (h9 : keyDown keys VK_NUMPAD9 = false) (hB : keyDown keys 66 = false) :
    (GetPose Real.cos Real.sin keys s).2.yaw
      = s.yaw + specStep (keyDown keys VK_NUMPAD3) (keyDown keys VK_NUMPAD1) 0.01 ∧
    (GetPose Real.cos Real.sin keys s).2.pitch
      = s.pitch + specStep (keyDown keys VK_NUMPAD4) (keyDown keys VK_NUMPAD6) 0.01 ∧
    (GetPose Real.cos Real.sin keys s).2.roll
      = s.roll + specStep (keyDown keys VK_NUMPAD8) (keyDown keys VK_NUMPAD2) 0.01 ∧
    (RunFrame Real.cos Real.sin keys s).state.cyaw
      = s.cyaw + specStep (keyDown keys 70) (keyDown keys 72) 0.1 ∧
    (RunFrame Real.cos Real.sin keys s).state.croll
      = s.croll + specStep (keyDown keys 84) (keyDown keys 71) 0.1 ∧
    specStep true false (0.01 : ℝ) = 0.01 ∧ specStep false true (0.01 : ℝ) = -0.01 ∧
    specStep false false (0.01 : ℝ) = 0 ∧ specStep true true (0.01 : ℝ) = 0 := by
  refine ⟨?_, ?_, ?_, ?_, ?_, rfl, rfl, rfl, rfl⟩
  · simp only [GetPose, h9, Bool.false_eq_true, if_false]
    exact step_real _ _ _ _
  · simp only [GetPose, h9, Bool.false_eq_true, if_false]
    exact step_real _ _ _ _
  · simp only [GetPose, h9, Bool.false_eq_true, if_false]
    exact step_real _ _ _ _
  · rw [RunFrame_state_cyaw]
    exact step_real _ _ _ _
  · rw [RunFrame_state_croll]
    simp only [hB, Bool.false_eq_true, if_false]
    exact step_real _ _ _ _

/-- Witness of C11: NUMPAD3 (head yaw plus) and H (controller yaw minus)
down, from the activated state. -/
theorem C11_fixed_step_increments_witness :
    keyDown (keysDown [VK_NUMPAD3, 72]) VK_NUMPAD9 = false ∧
    keyDown (keysDown [VK_NUMPAD3, 72]) 66 = false ∧
    (GetPose Real.cos Real.sin (keysDown [VK_NUMPAD3, 72]) (activatedState : DriverState ℝ)).2.yaw
      = (activatedState : DriverState ℝ).yaw + specStep (keyDown (keysDown [VK_NUMPAD3, 72]) VK_NUMPAD3) (keyDown (keysDown [VK_NUMPAD3, 72]) VK_NUMPAD1) 0.01 ∧
    (GetPose Real.cos Real.sin (keysDown [VK_NUMPAD3, 72]) (activatedState : DriverState ℝ)).2.pitch
      = (activatedState : DriverState ℝ).pitch + specStep (keyDown (keysDown [VK_NUMPAD3, 72]) VK_NUMPAD4) (keyDown (keysDown [VK_NUMPAD3, 72]) VK_NUMPAD6) 0.01 ∧
    (GetPose Real.cos Real.sin (keysDown [VK_NUMPAD3, 72]) (activatedState : DriverState ℝ)).2.roll
      = (activatedState : DriverState ℝ).roll + specStep (keyDown (keysDown [VK_NUMPAD3, 72]) VK_NUMPAD8) (keyDown (keysDown [VK_NUMPAD3, 72]) VK_NUMPAD2) 0.01 ∧
    (RunFrame Real.cos Real.sin (keysDown [VK_NUMPAD3, 72]) (activatedState : DriverState ℝ)).state.cyaw
      = (activatedState : DriverState ℝ).cyaw + specStep (keyDown (keysDown [VK_NUMPAD3, 72]) 70) (keyDown (keysDown [VK_NUMPAD3, 72]) 72) 0.1 ∧
    (RunFrame Real.cos Real.sin (keysDown [VK_NUMPAD3, 72]) (activatedState : DriverState ℝ)).state.croll
      = (activatedState : DriverState ℝ).croll + specStep (keyDown (keysDown [VK_NUMPAD3, 72]) 84) (keyDown (keysDown [VK_NUMPAD3, 72]) 71) 0.1 ∧
    specStep true false (0.01 : ℝ) = 0.01 ∧ specStep false true (0.01 : ℝ) = -0.01 ∧
    specStep false false (0.01 : ℝ) = 0 ∧ specStep true true (0.01 : ℝ) = 0 :=
  ⟨by decide, by decide,
    C11_fixed_step_increments (keysDown [VK_NUMPAD3, 72]) activatedState (by decide) (by decide)⟩

/-! ### The head accumulators and the activation guard -/

theorem RunFrame_state_head (keys : KeySnapshot) (s : DriverState ℝ) :
    (RunFrame Real.cos Real.sin keys s).state.headOrientation
      = (RunFrame_head Real.cos Real.sin keys s).2.headOrientation ∧
    (RunFrame Real.cos Real.sin keys s).state.headPosition
      = (RunFrame_head Real.cos Real.sin keys s).2.headPosition := by
  simp [RunFrame, DriverState.headOrientation, DriverState.headPosition]

/-- C12 (counterexample): in the state before any activation, a frame with
only the head yaw key NUMPAD3 down leaves `yaw` at 0, whereas the increment of
that key, as `GetPose` applies it, gives 0.01; so the head accumulators are
not advanced in every `RunFrame` call. -/
theorem C12_counterexample :
    (initialState : DriverState ℝ).m_unObjectId = k_unTrackedDeviceIndexInvalid ∧
    keyDown (onlyKey VK_NUMPAD3) VK_NUMPAD3 = true ∧
    (GetPose Real.cos Real.sin (onlyKey VK_NUMPAD3) initialState).2.yaw = 0.01 ∧
    (RunFrame Real.cos Real.sin (onlyKey VK_NUMPAD3) initialState).state.yaw = 0 ∧
    ¬ (∀ (keys : KeySnapshot) (s : DriverState ℝ),
        (RunFrame Real.cos Real.sin keys s).state.headOrientation
          = (GetPose Real.cos Real.sin keys s).2.headOrientation ∧
        (RunFrame Real.cos Real.sin keys s).state.headPosition
          = (GetPose Real.cos Real.sin keys s).2.headPosition) := by
  have hG : (GetPose Real.cos Real.sin (onlyKey VK_NUMPAD3) initialState).2.yaw = 0.01 := by
    simp [GetPose, initialState, stateWithIndices, VK_NUMPAD3, VK_NUMPAD1, VK_NUMPAD9]
  have hR : (RunFrame Real.cos Real.sin (onlyKey VK_NUMPAD3) initialState).state.yaw = 0 := by
    rw [(RunFrame_state_head_angles _ _).1, RunFrame_head_state]
    simp [initialState, stateWithIndices]
  refine ⟨rfl, by simp, hG, hR, ?_⟩
  intro h
  have h1 := (h (onlyKey VK_NUMPAD3) initialState).1
  simp only [DriverState.headOrientation, Prod.mk.injEq] at h1
  rw [hG, hR] at h1
  norm_num at h1

/-- C12 (amended): the activation guard of line 424 gates the integration as
well as the push.  With the HMD index valid, `RunFrame` leaves the head
orientation and position accumulators as one `GetPose` call advances them and
its first host call pushes that pose; with the HMD index invalid, `RunFrame`
leaves the head accumulators unchanged and pushes only the two controller
poses. -/
theorem C12_head_integration_gated (keys : KeySnapshot) (s : DriverState ℝ) :
    (s.m_unObjectId ≠ k_unTrackedDeviceIndexInvalid →
      (RunFrame Real.cos Real.sin keys s).state.headOrientation
        = (GetPose Real.cos Real.sin keys s).2.headOrientation ∧
      (RunFrame Real.cos Real.sin keys s).state.headPosition
        = (GetPose Real.cos Real.sin keys s).2.headPosition ∧
      (RunFrame Real.cos Real.sin keys s).calls.head?
        = some (HostCall.TrackedDevicePoseUpdated s.m_unObjectId
            (GetPose Real.cos Real.sin keys s).1) ∧
      (RunFrame Real.cos Real.sin keys s).calls.countP HostCall.isPoseUpdate = 3) ∧
    (s.m_unObjectId = k_unTrackedDeviceIndexInvalid →
      (RunFrame Real.cos Real.sin keys s).state.headOrientation = s.headOrientation ∧
      (RunFrame Real.cos Real.sin keys s).state.headPosition = s.headPosition ∧
      (RunFrame Real.cos Real.sin keys s).calls.countP HostCall.isPoseUpdate = 2) := by
  have hst := RunFrame_state_head keys s
  constructor
  · intro hact
    rw [RunFrame_head_state, if_neg hact] at hst
    refine ⟨hst.1, hst.2, ?_, ?_⟩
    · rw [RunFrame_calls, RunFrame_head_calls, if_neg hact]
      rfl
    · rw [RunFrame_calls, RunFrame_head_calls, if_neg hact]
      simp only [List.countP_append, (controller1_input_counts keys _ _).2.2,
        (controller2_input_counts keys _ _).2.2]
      simp [List.countP_cons, HostCall.isPoseUpdate]
  · intro hinv
    rw [RunFrame_head_state, if_pos hinv] at hst
    refine ⟨hst.1, hst.2, ?_⟩
    rw [RunFrame_calls, RunFrame_head_calls, if_pos hinv]
    simp only [List.countP_append, (controller1_input_counts keys _ _).2.2,
      (controller2_input_counts keys _ _).2.2]
    simp [List.countP_cons, HostCall.isPoseUpdate]

/-- Witness of C12 (amended): NUMPAD3 down, once from the activated state
and once from the state before any activation. -/
theorem C12_head_integration_gated_witness :
    ((activatedState : DriverState ℝ).m_unObjectId ≠ k_unTrackedDeviceIndexInvalid ∧
      (RunFrame Real.cos Real.sin (onlyKey VK_NUMPAD3) (activatedState : DriverState ℝ)).state.headOrientation
        = (GetPose Real.cos Real.sin (onlyKey VK_NUMPAD3) (activatedState : DriverState ℝ)).2.headOrientation ∧
      (RunFrame Real.cos Real.sin (onlyKey VK_NUMPAD3) (activatedState : DriverState ℝ)).state.headPosition
        = (GetPose Real.cos Real.sin (onlyKey VK_NUMPAD3) (activatedState : DriverState ℝ)).2.headPosition ∧
      (RunFrame Real.cos Real.sin (onlyKey VK_NUMPAD3) (activatedState : DriverState ℝ)).calls.head?
        = some (HostCall.TrackedDevicePoseUpdated (activatedState : DriverState ℝ).m_unObjectId
            (GetPose Real.cos Real.sin (onlyKey VK_NUMPAD3) (activatedState : DriverState ℝ)).1) ∧
      (RunFrame Real.cos Real.sin (onlyKey VK_NUMPAD3) (activatedState : DriverState ℝ)).calls.countP HostCall.isPoseUpdate = 3) ∧
    ((initialState : DriverState ℝ).m_unObjectId = k_unTrackedDeviceIndexInvalid ∧
      (RunFrame Real.cos Real.sin (onlyKey VK_NUMPAD3) (initialState : DriverState ℝ)).state.headOrientation = (initialState : DriverState ℝ).headOrientation ∧
      (RunFrame Real.cos Real.sin (onlyKey VK_NUMPAD3) (initialState : DriverState ℝ)).state.headPosition = (initialState : DriverState ℝ).headPosition ∧
      (RunFrame Real.cos Real.sin (onlyKey VK_NUMPAD3) (initialState : DriverState ℝ)).calls.countP HostCall.isPoseUpdate = 2) :=
  ⟨⟨by decide, (C12_head_integration_gated (onlyKey VK_NUMPAD3) activatedState).1 (by decide)⟩,
    ⟨rfl, (C12_head_integration_gated (onlyKey VK_NUMPAD3) initialState).2 rfl⟩⟩

/-! ### The input blocks against the button and axis mapping -/

section Mapping

variable {α : Type} [Field α] (keys : KeySnapshot) (id : Nat) (st : VRControllerState_t α)

theorem controller1_input_perm :
    (RunFrame_controller1_input keys id st).Perm
      [specButtonCall id EVRButtonId.k_EButton_System (keyDown keys 90),
       specButtonCall id EVRButtonId.k_EButton_SteamVR_Trigger (keyDown keys 88),
       specAxisCall id 1 (keyDown keys 88) (st.rAxis 1).y,
       specButtonCall id EVRButtonId.k_EButton_ApplicationMenu (keyDown keys 67),
       specButtonCall id EVRButtonId.k_EButton_Grip (keyDown keys 86),
       specButtonCall id EVRButtonId.k_EButton_SteamVR_Touchpad (keyDown keys 49)] := by
  simp only [RunFrame_controller1_input, specButtonCall, specAxisCall]
  split_ifs <;>
    first
      | exact List.Perm.refl _
      | exact List.Perm.cons _ (List.Perm.swap _ _ _)

theorem controller2_input_perm :
    (RunFrame_controller2_input keys id st).Perm
      [specButtonCall id EVRButtonId.k_EButton_System (keyDown keys 78),
       specButtonCall id EVRButtonId.k_EButton_SteamVR_Trigger (keyDown keys 188),
       specAxisCall id 1 (keyDown keys 188) (st.rAxis 1).y,
       specButtonCall id EVRButtonId.k_EButton_ApplicationMenu (keyDown keys 190),
       specButtonCall id EVRButtonId.k_EButton_Grip (keyDown keys 191),
       specButtonCall id EVRButtonId.k_EButton_SteamVR_Touchpad (keyDown keys 50),
       specAxisCall id 0 (keyDown keys 51) 0.0] := by
  simp only [RunFrame_controller2_input, specButtonCall, specAxisCall]
  split_ifs <;>
    first
      | exact List.Perm.refl _
      | exact List.Perm.cons _ (List.Perm.swap _ _ _)

end Mapping

/-- C13: for every key snapshot and state, the frame consists of an
input-free head part, the left input block, the left pose update, the right
input block and the right pose update, where the left block is, up to order,
one button notification for each of system, trigger, menu, grip, touchpad
(pressed if and only if Z, X, C, V, 1 is down, unpressed otherwise) and one
slot-1 axis notification with x-channel 1.0 if X is down and 0.0 otherwise;
the right block is the same on N, comma, period, slash, 2, plus one slot-0
axis notification with `(x, y) = (1.0, 0.0)` if key 3 is down and
`(0.0, 0.0)` otherwise, whatever the five button keys are. -/
theorem C13_button_axis_mapping (keys : KeySnapshot) (s : DriverState ℝ) :
    ∃ (H L R : List (HostCall ℝ)) (pl pr : DriverPose_t ℝ),
      (RunFrame Real.cos Real.sin keys s).calls
        = H ++ L ++ [HostCall.TrackedDevicePoseUpdated s.controller_left.getObjectID pl]
          ++ R ++ [HostCall.TrackedDevicePoseUpdated s.controller_right.getObjectID pr] ∧
      H.countP HostCall.isInput = 0 ∧
      L.Perm
        [specButtonCall s.controller_left.getObjectID EVRButtonId.k_EButton_System
           (keyDown keys 90),
         specButtonCall s.controller_left.getObjectID EVRButtonId.k_EButton_SteamVR_Trigger
           (keyDown keys 88),
         specAxisCall s.controller_left.getObjectID 1 (keyDown keys 88)
           (s.controller_right.GetControllerState.rAxis 1).y,
         specButtonCall s.controller_left.getObjectID EVRButtonId.k_EButton_ApplicationMenu
           (keyDown keys 67),
         specButtonCall s.controller_left.getObjectID EVRButtonId.k_EButton_Grip
           (keyDown keys 86),
         specButtonCall s.controller_left.getObjectID EVRButtonId.k_EButton_SteamVR_Touchpad
           (keyDown keys 49)] ∧
      R.Perm
        [specButtonCall s.controller_right.getObjectID EVRButtonId.k_EButton_System
           (keyDown keys 78),
         specButtonCall s.controller_right.getObjectID EVRButtonId.k_EButton_SteamVR_Trigger
           (keyDown keys 188),
         specAxisCall s.controller_right.getObjectID 1 (keyDown keys 188)
           (s.controller_right.GetControllerState.rAxis 1).y,
         specButtonCall s.controller_right.getObjectID EVRButtonId.k_EButton_ApplicationMenu
           (keyDown keys 190),
         specButtonCall s.controller_right.getObjectID EVRButtonId.k_EButton_Grip
           (keyDown keys 191),
         specButtonCall s.controller_right.getObjectID EVRButtonId.k_EButton_SteamVR_Touchpad
           (keyDown keys 50),
         specAxisCall s.controller_right.getObjectID 0 (keyDown keys 51) 0.0] ∧
      (1.0 : ℝ) ≠ 0.0 :=
  ⟨(RunFrame_head Real.cos Real.sin keys s).1,
    RunFrame_controller1_input keys s.controller_left.object_id_
      s.controller_right.controller_state_,
    RunFrame_controller2_input keys s.controller_right.object_id_
      s.controller_right.controller_state_,
    (RunFrame Real.cos Real.sin keys s).left_pose,
    (RunFrame Real.cos Real.sin keys s).right_pose,
    RunFrame_calls Real.cos Real.sin keys s,
    (RunFrame_head_signals keys Real.cos Real.sin s).2,
    controller1_input_perm keys _ _,
    controller2_input_perm keys _ _,
    by norm_num⟩

/-! ### Position accumulators -/

theorem GetPose_headPosition_congr (k1 k2 : KeySnapshot) (s1 s2 : DriverState ℝ)
    (hk : agreeOn headPositionKeys k1 k2) (hs : s1.headPosition = s2.headPosition) :
    (GetPose Real.cos Real.sin k1 s1).2.headPosition
      = (GetPose Real.cos Real.sin k2 s2).2.headPosition := by
  simp only [DriverState.headPosition, Prod.mk.injEq] at hs
  obtain ⟨hx, hy, hz⟩ := hs
  simp only [GetPose, DriverState.headPosition, hx, hy, hz,
    hk VK_UP (by decide), hk VK_DOWN (by decide), hk VK_LEFT (by decide),
    hk VK_RIGHT (by decide), hk VK_PRIOR (by decide), hk VK_NEXT (by decide),
    hk VK_END (by decide)]

theorem RunFrame_leftPosition_congr (k1 k2 : KeySnapshot) (s1 s2 : DriverState ℝ)
    (hk : agreeOn leftPositionKeys k1 k2) (hs : s1.leftPosition = s2.leftPosition) :
    (RunFrame Real.cos Real.sin k1 s1).state.leftPosition
      = (RunFrame Real.cos Real.sin k2 s2).state.leftPosition := by
  simp only [DriverState.leftPosition, Prod.mk.injEq] at hs
  obtain ⟨hx, hy, hz⟩ := hs
  simp only [RunFrame, DriverState.leftPosition, RunFrame_head_cpX, RunFrame_head_cpY,
    RunFrame_head_cpZ, hx, hy, hz,
    hk 87 (by decide), hk 83 (by decide), hk 65 (by decide), hk 68 (by decide),
    hk 81 (by decide), hk 69 (by decide), hk 82 (by decide)]

theorem RunFrame_rightPosition_congr (k1 k2 : KeySnapshot) (s1 s2 : DriverState ℝ)
    (hk : agreeOn rightPositionKeys k1 k2) (hs : s1.rightPosition = s2.rightPosition) :
    (RunFrame Real.cos Real.sin k1 s1).state.rightPosition
      = (RunFrame Real.cos Real.sin k2 s2).state.rightPosition := by
  simp only [DriverState.rightPosition, Prod.mk.injEq] at hs
  obtain ⟨hx, hy, hz⟩ := hs
  simp only [RunFrame, DriverState.rightPosition, RunFrame_head_c2pX, RunFrame_head_c2pY,
    RunFrame_head_c2pZ, hx, hy, hz,
    hk 73 (by decide), hk 75 (by decide), hk 74 (by decide), hk 76 (by decide),
    hk 85 (by decide), hk 79 (by decide), hk 80 (by decide)]

theorem RunFrame_position_reset (keys : KeySnapshot) (s : DriverState ℝ) :
    (keyDown keys VK_END = true →
      (GetPose Real.cos Real.sin keys s).2.headPosition = (0, 0, 0)) ∧
    (keyDown keys 82 = true →
      (RunFrame Real.cos Real.sin keys s).state.leftPosition = (0, 0, 0)) ∧
    (keyDown keys 80 = true →
      (RunFrame Real.cos Real.sin keys s).state.rightPosition = (0, 0, 0)) := by
  refine ⟨fun h => ?_, fun h => ?_, fun h => ?_⟩
  · simp [GetPose, DriverState.headPosition, h]
  · simp [RunFrame, DriverState.leftPosition, h]
  · simp [RunFrame, DriverState.rightPosition, h]

theorem GetPose_idle (keys : KeySnapshot) (s : DriverState ℝ)
    (kf : ∀ vk, vk ∉ rightPositionKeys → keyDown keys vk = false) :
    (GetPose Real.cos Real.sin keys s).2.headOrientation = s.headOrientation ∧
    (GetPose Real.cos Real.sin keys s).2.headPosition = s.headPosition := by
  simp [GetPose, DriverState.headOrientation, DriverState.headPosition,
    kf VK_NUMPAD3 (by decide), kf VK_NUMPAD1 (by decide), kf VK_NUMPAD4 (by decide),
    kf VK_NUMPAD6 (by decide), kf VK_NUMPAD8 (by decide), kf VK_NUMPAD2 (by decide),
    kf VK_NUMPAD9 (by decide), kf VK_UP (by decide), kf VK_DOWN (by decide),
    kf VK_LEFT (by decide), kf VK_RIGHT (by decide), kf VK_PRIOR (by decide),
    kf VK_NEXT (by decide), kf VK_END (by decide)]

theorem RunFrame_left_idle (keys : KeySnapshot) (s : DriverState ℝ)
    (kf : ∀ vk, vk ∉ rightPositionKeys → keyDown keys vk = false) :
    (RunFrame Real.cos Real.sin keys s).state.controllerOrientation = s.controllerOrientation ∧
    (RunFrame Real.cos Real.sin keys s).state.leftPosition = s.leftPosition := by
  simp [RunFrame, DriverState.controllerOrientation, DriverState.leftPosition,
    kf 70 (by decide), kf 72 (by decide), kf 84 (by decide), kf 71 (by decide),
    kf 66 (by decide), kf 87 (by decide), kf 83 (by decide), kf 65 (by decide),
    kf 68 (by decide), kf 81 (by decide), kf 69 (by decide), kf 82 (by decide)]

theorem orientation_congr (k1 k2 : KeySnapshot) (s : DriverState ℝ)
    (hk : ∀ vk, vk ∉ headPositionKeys ++ leftPositionKeys ++ rightPositionKeys →
      keyDown k1 vk = keyDown k2 vk) :
    (GetPose Real.cos Real.sin k1 s).2.headOrientation
      = (GetPose Real.cos Real.sin k2 s).2.headOrientation ∧
    (RunFrame Real.cos Real.sin k1 s).state.controllerOrientation
      = (RunFrame Real.cos Real.sin k2 s).state.controllerOrientation := by
  constructor
  · simp only [GetPose, DriverState.headOrientation,
      hk VK_NUMPAD3 (by decide), hk VK_NUMPAD1 (by decide), hk VK_NUMPAD4 (by decide),
      hk VK_NUMPAD6 (by decide), hk VK_NUMPAD8 (by decide), hk VK_NUMPAD2 (by decide),
      hk VK_NUMPAD9 (by decide)]
  · simp only [DriverState.controllerOrientation, RunFrame_state_cyaw, RunFrame_state_cpitch,
      RunFrame_state_croll,
      hk 70 (by decide), hk 72 (by decide), hk 84 (by decide), hk 71 (by decide),
      hk 66 (by decide)]

/-- C14: with the HMD activated, each position accumulator after `RunFrame`
is a function of its own prior value and its own seven keys only: two frames
whose snapshots agree on a body's movement and reset keys and whose states
agree on that body's position leave the same position, for the head
(arrows, PgUp, PgDn, END), the left controller (W, S, A, D, Q, E, R) and the
right controller (I, K, J, L, U, O, P).  The reset key yields exactly
`(0,0,0)` whatever movement keys are held.  A frame in which only right-hand
position keys are down leaves the head and left-controller accumulators,
orientation and position, unchanged; and two snapshots that differ only on
position keys leave the same orientation accumulators. -/
theorem C14_position_accumulators_independent (k1 k2 : KeySnapshot) (s1 s2 : DriverState ℝ)
    (hact1 : s1.m_unObjectId ≠ k_unTrackedDeviceIndexInvalid)
    (hact2 : s2.m_unObjectId ≠ k_unTrackedDeviceIndexInvalid) :
    (agreeOn headPositionKeys k1 k2 → s1.headPosition = s2.headPosition →
      (RunFrame Real.cos Real.sin k1 s1).state.headPosition
        = (RunFrame Real.cos Real.sin k2 s2).state.headPosition) ∧
    (agreeOn leftPositionKeys k1 k2 → s1.leftPosition = s2.leftPosition →
      (RunFrame Real.cos Real.sin k1 s1).state.leftPosition
        = (RunFrame Real.cos Real.sin k2 s2).state.leftPosition) ∧
    (agreeOn rightPositionKeys k1 k2 → s1.rightPosition = s2.rightPosition →
      (RunFrame Real.cos Real.sin k1 s1).state.rightPosition
        = (RunFrame Real.cos Real.sin k2 s2).state.rightPosition) ∧
    (keyDown k1 VK_END = true →
      (RunFrame Real.cos Real.sin k1 s1).state.headPosition = (0, 0, 0)) ∧
    (keyDown k1 82 = true →
      (RunFrame Real.cos Real.sin k1 s1).state.leftPosition = (0, 0, 0)) ∧
    (keyDown k1 80 = true →
      (RunFrame Real.cos Real.sin k1 s1).state.rightPosition = (0, 0, 0)) ∧
    ((∀ vk, keyDown k1 vk = true → vk ∈ rightPositionKeys) →
      (RunFrame Real.cos Real.sin k1 s1).state.headOrientation = s1.headOrientation ∧
      (RunFrame Real.cos Real.sin k1 s1).state.headPosition = s1.headPosition ∧
      (RunFrame Real.cos Real.sin k1 s1).state.controllerOrientation
        = s1.controllerOrientation ∧
      (RunFrame Real.cos Real.sin k1 s1).state.leftPosition = s1.leftPosition) ∧
    ((∀ vk, vk ∉ headPositionKeys ++ leftPositionKeys ++ rightPositionKeys →
        keyDown k1 vk = keyDown k2 vk) →
      (RunFrame Real.cos Real.sin k1 s1).state.headOrientation
        = (RunFrame Real.cos Real.sin k2 s1).state.headOrientation ∧
      (RunFrame Real.cos Real.sin k1 s1).state.controllerOrientation
        = (RunFrame Real.cos Real.sin k2 s1).state.controllerOrientation) := by
  have e1 := RunFrame_state_head k1 s1
  have e2 := RunFrame_state_head k2 s2
  have e3 := RunFrame_state_head k2 s1
  rw [RunFrame_head_state, if_neg hact1] at e1 e3
  rw [RunFrame_head_state, if_neg hact2] at e2
  refine ⟨?_, RunFrame_leftPosition_congr k1 k2 s1 s2, RunFrame_rightPosition_congr k1 k2 s1 s2,
    ?_, (RunFrame_position_reset k1 s1).2.1, (RunFrame_position_reset k1 s1).2.2, ?_, ?_⟩
  · intro hk hs
    rw [e1.2, e2.2]
    exact GetPose_headPosition_congr k1 k2 s1 s2 hk hs
  · intro h
    rw [e1.2]
    exact (RunFrame_position_reset k1 s1).1 h
  · intro h
    have kf : ∀ vk, vk ∉ rightPositionKeys → keyDown k1 vk = false := by
      intro vk hvk
      cases hh : keyDown k1 vk
      · rfl
      · exact absurd (h vk hh) hvk
    rw [e1.1, e1.2]
    exact ⟨(GetPose_idle k1 s1 kf).1, (GetPose_idle k1 s1 kf).2,
      (RunFrame_left_idle k1 s1 kf).1, (RunFrame_left_idle k1 s1 kf).2⟩
  · intro hk
    rw [e1.1, e3.1]
    exact orientation_congr k1 k2 s1 hk

/-- Witness of C14: I and P (right-hand movement and reset) down, from the
activated state. -/
theorem C14_position_accumulators_independent_witness :
    (activatedState : DriverState ℝ).m_unObjectId ≠ k_unTrackedDeviceIndexInvalid ∧
    (agreeOn headPositionKeys (keysDown [73, 80]) (keysDown [73, 80]) → (activatedState : DriverState ℝ).headPosition = (activatedState : DriverState ℝ).headPosition →
      (RunFrame Real.cos Real.sin (keysDown [73, 80]) (activatedState : DriverState ℝ)).state.headPosition
        = (RunFrame Real.cos Real.sin (keysDown [73, 80]) (activatedState : DriverState ℝ)).state.headPosition) ∧
    (agreeOn leftPositionKeys (keysDown [73, 80]) (keysDown [73, 80]) → (activatedState : DriverState ℝ).leftPosition = (activatedState : DriverState ℝ).leftPosition →
      (RunFrame Real.cos Real.sin (keysDown [73, 80]) (activatedState : DriverState ℝ)).state.leftPosition
        = (RunFrame Real.cos Real.sin (keysDown [73, 80]) (activatedState : DriverState ℝ)).state.leftPosition) ∧
    (agreeOn rightPositionKeys (keysDown [73, 80]) (keysDown [73, 80]) → (activatedState : DriverState ℝ).rightPosition = (activatedState : DriverState ℝ).rightPosition →
      (RunFrame Real.cos Real.sin (keysDown [73, 80]) (activatedState : DriverState ℝ)).state.rightPosition
        = (RunFrame Real.cos Real.sin (keysDown [73, 80]) (activatedState : DriverState ℝ)).state.rightPosition) ∧
    (keyDown (keysDown [73, 80]) VK_END = true →
      (RunFrame Real.cos Real.sin (keysDown [73, 80]) (activatedState : DriverState ℝ)).state.headPosition = (0, 0, 0)) ∧
    (keyDown (keysDown [73, 80]) 82 = true →
      (RunFrame Real.cos Real.sin (keysDown [73, 80]) (activatedState : DriverState ℝ)).state.leftPosition = (0, 0, 0)) ∧
    (keyDown (keysDown [73, 80]) 80 = true →
      (RunFrame Real.cos Real.sin (keysDown [73, 80]) (activatedState : DriverState ℝ)).state.rightPosition = (0, 0, 0)) ∧
    ((∀ vk, keyDown (keysDown [73, 80]) vk = true → vk ∈ rightPositionKeys) →
      (RunFrame Real.cos Real.sin (keysDown [73, 80]) (activatedState : DriverState ℝ)).state.headOrientation = (activatedState : DriverState ℝ).headOrientation ∧
      (RunFrame Real.cos Real.sin (keysDown [73, 80]) (activatedState : DriverState ℝ)).state.headPosition = (activatedState : DriverState ℝ).headPosition ∧
      (RunFrame Real.cos Real.sin (keysDown [73, 80]) (activatedState : DriverState ℝ)).state.controllerOrientation
        = (activatedState : DriverState ℝ).controllerOrientation ∧
      (RunFrame Real.cos Real.sin (keysDown [73, 80]) (activatedState : DriverState ℝ)).state.leftPosition = (activatedState : DriverState ℝ).leftPosition) ∧
    ((∀ vk, vk ∉ headPositionKeys ++ leftPositionKeys ++ rightPositionKeys →
        keyDown (keysDown [73, 80]) vk = keyDown (keysDown [73, 80]) vk) →
      (RunFrame Real.cos Real.sin (keysDown [73, 80]) (activatedState : DriverState ℝ)).state.headOrientation
        = (RunFrame Real.cos Real.sin (keysDown [73, 80]) (activatedState : DriverState ℝ)).state.headOrientation ∧
      (RunFrame Real.cos Real.sin (keysDown [73, 80]) (activatedState : DriverState ℝ)).state.controllerOrientation
        = (RunFrame Real.cos Real.sin (keysDown [73, 80]) (activatedState : DriverState ℝ)).state.controllerOrientation) :=
  ⟨by decide,
    C14_position_accumulators_independent (keysDown [73, 80]) (keysDown [73, 80]) activatedState activatedState
      (by decide) (by decide)⟩

/-! ### The controller pitch over call sequences -/

section Pitch

variable {α : Type} [Field α] (cos sin : α → α)

theorem applyCall_cpitch (s : DriverState α) (c : DriverCall) (h : s.cpitch = 0) :
    (applyCall cos sin s c).cpitch = 0 := by
  cases c with
  | runFrame keys =>
    simp only [applyCall, RunFrame_state_cpitch, h]
    split <;> rfl
  | getPose keys => simpa [applyCall, GetPose] using h
  | activate i => exact h
  | deactivate => exact h
  | activateLeft i => exact h
  | activateRight i => exact h

theorem runCalls_cpitch (cs : List DriverCall) (s : DriverState α) (h : s.cpitch = 0) :
    (runCalls cos sin cs s).cpitch = 0 := by
  induction cs generalizing s with
  | nil => exact h
  | cons c cs ih => exact ih (applyCall cos sin s c) (applyCall_cpitch cos sin s c h)

end Pitch

theorem specConversion_zero_pitch (yaw roll : ℝ) :
    specConversion Real.cos Real.sin yaw 0 roll = specYawRoll Real.cos Real.sin yaw roll := by
  simp [specConversion, specYawRoll]

/-- C15: after any sequence of `RunFrame`, `GetPose` and activation calls from
the initial state, with any key snapshots, `cpitch` is 0; consequently in any
following frame the rotation of the left pose and of the right pose is
`(cy*cr, cy*sr, sy*sr, sy*cr)` for the post-increment `cyaw` and `croll`, and
these are the poses pushed for the two controllers. -/
theorem C15_cpitch_always_zero (cs : List DriverCall) (keys : KeySnapshot) :
    (runCalls Real.cos Real.sin cs initialState).cpitch = 0 ∧
    (RunFrame Real.cos Real.sin keys (runCalls Real.cos Real.sin cs initialState)).state.cpitch = 0 ∧
    (RunFrame Real.cos Real.sin keys (runCalls Real.cos Real.sin cs initialState)).left_pose.qRotation
      = specYawRoll Real.cos Real.sin
          (RunFrame Real.cos Real.sin keys (runCalls Real.cos Real.sin cs initialState)).state.cyaw
          (RunFrame Real.cos Real.sin keys (runCalls Real.cos Real.sin cs initialState)).state.croll ∧
    (RunFrame Real.cos Real.sin keys (runCalls Real.cos Real.sin cs initialState)).right_pose.qRotation
      = specYawRoll Real.cos Real.sin
          (RunFrame Real.cos Real.sin keys (runCalls Real.cos Real.sin cs initialState)).state.cyaw
          (RunFrame Real.cos Real.sin keys (runCalls Real.cos Real.sin cs initialState)).state.croll ∧
    HostCall.TrackedDevicePoseUpdated (runCalls Real.cos Real.sin cs initialState).controller_left.getObjectID
        (RunFrame Real.cos Real.sin keys (runCalls Real.cos Real.sin cs initialState)).left_pose
      ∈ (RunFrame Real.cos Real.sin keys (runCalls Real.cos Real.sin cs initialState)).calls ∧
    (RunFrame Real.cos Real.sin keys (runCalls Real.cos Real.sin cs initialState)).calls.getLast?
      = some (HostCall.TrackedDevicePoseUpdated (runCalls Real.cos Real.sin cs initialState).controller_right.getObjectID
          (RunFrame Real.cos Real.sin keys (runCalls Real.cos Real.sin cs initialState)).right_pose) := by
  have h0 : (runCalls Real.cos Real.sin cs initialState).cpitch = 0 :=
    runCalls_cpitch Real.cos Real.sin cs initialState rfl
  have h1 : (RunFrame Real.cos Real.sin keys (runCalls Real.cos Real.sin cs initialState)).state.cpitch = 0 :=
    applyCall_cpitch Real.cos Real.sin _ (DriverCall.runFrame keys) h0
  have hl : (RunFrame Real.cos Real.sin keys (runCalls Real.cos Real.sin cs initialState)).left_pose.qRotation
      = specYawRoll Real.cos Real.sin
          (RunFrame Real.cos Real.sin keys (runCalls Real.cos Real.sin cs initialState)).state.cyaw
          (RunFrame Real.cos Real.sin keys (runCalls Real.cos Real.sin cs initialState)).state.croll := by
    rw [RunFrame_left_qRotation_real, h1, specConversion_zero_pitch]
  have hr : (RunFrame Real.cos Real.sin keys (runCalls Real.cos Real.sin cs initialState)).right_pose.qRotation
      = (RunFrame Real.cos Real.sin keys (runCalls Real.cos Real.sin cs initialState)).left_pose.qRotation := by
    simp only [RunFrame]
  refine ⟨h0, h1, hl, hr.trans hl, ?_, ?_⟩
  · rw [RunFrame_calls]
    simp [DummyController.getObjectID]
  · rw [RunFrame_calls]
    exact List.getLast?_concat _

end DriverSample
